import Mathlib

/-!
Verification of the physics-sandbox core (PhysicsSceneBuilder) against its
specification.  The definitions below are a shallow embedding of the
JavaScript source (the current engine version, `PhysicsSceneBuilder` of the
frontend utils module): numbers are modelled as exact rationals, JS objects
as Lean structures, the id-indexed JS objects (`this.entities`,
`this.sceneData`) as association lists, and the mutation of Matter.js
bodies as explicit state passing.

Two systematic conventions:

* `Math.sqrt` (inside `Vector.magnitude`) has no exact rational counterpart,
  so every function that needs a magnitude takes a square-root oracle
  `sq : ℚ → ℚ` as a parameter; theorems that depend on the magnitude
  constrain the oracle's value at the point of use (`d ^ 2 = magSq v`,
  `0 ≤ d`).  Witnesses instantiate the oracle with `ratSqrt`, which is
  exact on perfect squares.

* JS truthiness tests on numeric fields (`x || d`, `if (obj.mass)`) are
  modelled on `Option ℚ`: `none` (JS `undefined`) and `some 0` are falsy.
-/

namespace Phys

/-- Planar vector with exact rational coordinates (a Matter.js `Vector`). -/
structure Vec2 where
  x : ℚ
  y : ℚ
deriving DecidableEq, Repr

/-- Vector addition (`Vector.add`). -/
def vadd (a b : Vec2) : Vec2 := ⟨a.x + b.x, a.y + b.y⟩

/-- Vector subtraction (`Vector.sub`). -/
def vsub (a b : Vec2) : Vec2 := ⟨a.x - b.x, a.y - b.y⟩

/-- Scalar multiplication (`Vector.mult`). -/
def vmul (a : Vec2) (s : ℚ) : Vec2 := ⟨a.x * s, a.y * s⟩

/-- Scalar division (`Vector.div`).  In ℚ division by zero yields zero; the
source always guards its divisions by a positivity test, so the two agree
wherever theorems evaluate it. -/
def vdiv (a : Vec2) (s : ℚ) : Vec2 := ⟨a.x / s, a.y / s⟩

/-- Vector negation (`Vector.neg`). -/
def vneg (a : Vec2) : Vec2 := ⟨-a.x, -a.y⟩

/-- Dot product (`Vector.dot`). -/
def vdot (a b : Vec2) : ℚ := a.x * b.x + a.y * b.y

/-- Squared magnitude (`Vector.magnitudeSquared`). -/
def magSq (a : Vec2) : ℚ := a.x * a.x + a.y * a.y

/-- The zero vector. -/
def vzero : Vec2 := ⟨0, 0⟩

/-- An angle, represented by its cosine/sine pair.  The source stores angles
in radians and only ever selects them, assigns them, rotates vectors by them
and takes `Math.cos`/`Math.sin`; representing the angle by the rotation it
denotes keeps the embedding inside ℚ. -/
structure Rot where
  c : ℚ
  s : ℚ
deriving DecidableEq, Repr

/-- The zero angle. -/
def Rot.id : Rot := ⟨1, 0⟩

/-- Rotation of a vector by an angle (`Vector.rotate`). -/
def vrot (v : Vec2) (r : Rot) : Vec2 :=
  ⟨v.x * r.c - v.y * r.s, v.x * r.s + v.y * r.c⟩

/-- Exact square root of a rational that is a square of a rational; used
only by witnesses to instantiate the square-root oracle. -/
def ratSqrt (q : ℚ) : ℚ := (Nat.sqrt q.num.toNat : ℚ) / (Nat.sqrt q.den : ℚ)

/-- JS `v || d` on an optional numeric field: `undefined` and `0` are falsy. -/
def orQ (o : Option ℚ) (d : ℚ) : ℚ :=
  match o with
  | some v => if v = 0 then d else v
  | none => d

/-- JS truthiness of an optional numeric field. -/
def truthyQ (o : Option ℚ) : Bool :=
  match o with
  | some v => v ≠ 0
  | none => false

/-- Association-list lookup for the id-indexed JS objects. -/
def lookupA {α : Type} (l : List (String × α)) (k : String) : Option α :=
  match l with
  | [] => none
  | p :: rest => if p.1 = k then some p.2 else lookupA rest k

/-- Replace the value stored under an existing key (mutation of an object's
property); a key that is not present is left alone — the source only writes
through references it has just looked up. -/
def updateA {α : Type} (l : List (String × α)) (k : String) (v : α) :
    List (String × α) :=
  l.map (fun p => if p.1 = k then (k, v) else p)

/-- JS `obj[k] = v`: overwrite if the key exists, append otherwise. -/
def insertA {α : Type} (l : List (String × α)) (k : String) (v : α) :
    List (String × α) :=
  match lookupA l k with
  | some _ => updateA l k v
  | none => l ++ [(k, v)]

/-- JS `delete obj[k]`. -/
def removeA {α : Type} (l : List (String × α)) (k : String) :
    List (String × α) :=
  l.filter (fun p => p.1 ≠ k)

/-- Shape type of a scene object (`data.type`). -/
inductive SType where
  | Box | Rectangle | Ground | Wall | Conveyor
  | Circle | Triangle | Incline | Trapezoid | Capsule | Text
  | Polygon | Cone
deriving DecidableEq, Repr

/-- A scene-data record (`this.sceneData[id]`): the authoritative parametric
description of one object.  Rendering-only fields (color, text, style) are
omitted: no operation modelled here reads them back. -/
structure SceneObj where
  id : String
  type : SType
  x : ℚ
  y : ℚ
  z : ℚ
  width : Option ℚ
  height : Option ℚ
  depth : Option ℚ
  radius : Option ℚ
  sides : Option ℚ
  angle : Option Rot
  angleTop : Option Rot
  isStatic : Bool
  friction : ℚ
  frictionAir : Option ℚ
  restitution : ℚ
  mass : Option ℚ
  velocity : Option Vec2
  customVertices : Option (List Vec2)
  isPointMass : Bool
  conveyorSpeed : Option ℚ
  speed : Option ℚ
deriving DecidableEq, Repr

/-- A live Matter.js rigid body, reduced to the fields the modelled
operations read or write.  `force`/`torque` are the per-tick accumulators
that `Body.applyForce` adds into; `boundsMin`/`boundsMax` stand for
`body.bounds` (maintained by the external engine). -/
structure MBody where
  position : Vec2
  velocity : Vec2
  force : Vec2
  torque : ℚ
  angle : Rot
  isStatic : Bool
  mass : ℚ
  inverseMass : ℚ
  friction : ℚ
  frictionAir : ℚ
  restitution : ℚ
  isPointMass : Bool
  vertices : List Vec2
  boundsMin : Vec2
  boundsMax : Vec2
deriving DecidableEq, Repr

/-- Matter.js `Body.applyForce(body, position, force)`: accumulates the
force and the torque of its offset from the centre of mass. -/
def applyForce (b : MBody) (position force : Vec2) : MBody :=
  { b with
    force := vadd b.force force
    torque := b.torque +
      ((position.x - b.position.x) * force.y -
        (position.y - b.position.y) * force.x) }

/-- Matter.js `Body.translate(body, translation)`. -/
def translate (b : MBody) (t : Vec2) : MBody :=
  { b with position := vadd b.position t }

/-- Matter.js `Body.setVelocity(body, velocity)`. -/
def setVelocity (b : MBody) (v : Vec2) : MBody :=
  { b with velocity := v }

/-- Matter.js `Body.setMass(body, mass)`. -/
def setMass (b : MBody) (m : ℚ) : MBody :=
  { b with mass := m, inverseMass := 1 / m }

/-- Kind tag of a custom constraint (`cons.type`). -/
inductive CKind where
  | spring | ideal_rope | pulley | force | friction
deriving DecidableEq, Repr

/-- A custom constraint record, as pushed onto `this.customConstraints` by
the `createSpring` / `createIdealRope` / `createPulley` / `createForce` /
`createFrictionConstraint` entry points.  Fields a kind does not use are
simply not read by its solver. -/
structure Constraint where
  id : String
  kind : CKind
  bodyAId : Option String
  bodyBId : Option String
  pointA : Vec2
  pointB : Vec2
  pointC : Vec2
  pointD : Vec2
  length : ℚ
  maxForce : Option ℚ
  isElastic : Bool
  stiffness : Option ℚ
  damping : Option ℚ
  vector : Vec2
  friction : ℚ
deriving DecidableEq, Repr

/-- The two view modes. -/
inductive ViewMode where
  | side | top
deriving DecidableEq, Repr

/-- The mutable state of a `PhysicsSceneBuilder`, reduced to the fields the
modelled operations touch. -/
structure World where
  mode : ViewMode
  sceneData : List (String × SceneObj)
  entities : List (String × MBody)
  constraints : List Constraint
  gravityY : ℚ
  globalAirResistance : ℚ
deriving Repr

/-- The shape family that gets a centroid offset in side view. -/
def offsetFamily (t : SType) : Bool :=
  t = SType.Triangle ∨ t = SType.Incline ∨ t = SType.Cone ∨ t = SType.Trapezoid

/-- `_getCenterOffset(type, width, height)`: displacement from the visual
bounding-box centre to the centre of mass for the asymmetric shapes. -/
def getCenterOffset (type : SType) (width height : ℚ) : Vec2 :=
  if type = SType.Triangle ∨ type = SType.Incline then
    ⟨width / 6, height / 6⟩
  else if type = SType.Cone then
    ⟨0, height / 6⟩
  else if type = SType.Trapezoid then
    let denom := 6 * (2 * width - height)
    if denom ≤ 0 then ⟨0, 0⟩ else ⟨0, height * height / denom⟩
  else ⟨0, 0⟩

/-- World-space anchor of a constraint endpoint: the body's position plus
its local anchor offset rotated by the body's current angle, or the stored
point itself when no body is referenced (the common prelude of
`_solveSpring`, `_solveIdealRope` and `_solveIdealPulley`). -/
def worldAnchor (b : Option MBody) (pt : Vec2) : Vec2 :=
  match b with
  | some bb => vadd bb.position (vrot pt bb.angle)
  | none => pt

/-- Velocity of an optional body, zero when absent (`bodyA ? bodyA.velocity
: {x:0,y:0}`). -/
def optVel (b : Option MBody) : Vec2 :=
  match b with
  | some bb => bb.velocity
  | none => vzero

/-- Apply a force at a point to the body when it exists and is dynamic
(`if (bodyA && !bodyA.isStatic) Matter.Body.applyForce(...)`). -/
def applyIfDynamic (b : Option MBody) (pos force : Vec2) : Option MBody :=
  match b with
  | some bb => if bb.isStatic then some bb else some (applyForce bb pos force)
  | none => none

/-- Inverse mass contributed to a position-based correction: zero for a
missing or static body. -/
def invMassOf (b : Option MBody) : ℚ :=
  match b with
  | some bb => if bb.isStatic then 0 else bb.inverseMass
  | none => 0

/-- The PBD stiffness factor `rope.stiffness ?
Math.min(Math.max(rope.stiffness, 0.1), 1.0) : 0.8` (shared by the
non-elastic rope and the pulley solver); a missing or zero stiffness is
falsy and yields the 0.8 default. -/
def ropeK (stiffness : Option ℚ) : ℚ :=
  match stiffness with
  | some s => if s = 0 then 4 / 5 else min (max s (1 / 10)) 1
  | none => 4 / 5

/-- Elastic-rope break test `rope.maxForce && forceMag > rope.maxForce`. -/
def elasticBreak (maxForce : Option ℚ) (forceMag : ℚ) : Bool :=
  match maxForce with
  | some mf => if mf = 0 then false else decide (forceMag > mf)
  | none => false

/-- Non-elastic-rope break test `rope.maxForce && diff > rope.maxForce *
0.1`: note the threshold is a tenth of `maxForce`. -/
def nonElasticBreak (maxForce : Option ℚ) (diff : ℚ) : Bool :=
  match maxForce with
  | some mf => if mf = 0 then false else decide (diff > mf * (1 / 10))
  | none => false

/-- Result of one `_solveIdealRope` pass: the two (possibly updated) bodies
and whether the rope broke (`_removeConstraint` was called). -/
structure SolveOut where
  bodyA : Option MBody
  bodyB : Option MBody
  removed : Bool
deriving DecidableEq, Repr

/-- The A-side update of the non-elastic rope solver: translate a dynamic
body by its inverse-mass share of the correction when that movement is
under the 50-unit safety cap, then halve the velocity component along the
normal when it points away from the constraint (`velAlongNormal < 0`). -/
def ropeMoveA (normal correction : Vec2) (totalInverseMass k : ℚ)
    (b : Option MBody) : Option MBody :=
  match b with
  | some bb =>
    if bb.isStatic then some bb else
    let ratio := bb.inverseMass / totalInverseMass
    let move := vmul correction (ratio * k)
    if magSq move < 2500 then
      let b1 := translate bb move
      let velAlongNormal := vdot b1.velocity normal
      if velAlongNormal < 0 then
        some (setVelocity b1 (vsub b1.velocity (vmul normal (velAlongNormal * (1 / 2)))))
      else some b1
    else some bb
  | none => none

/-- The B-side update: the mirrored correction (`-ratio * k`) and the
mirrored re-stretch test (`velAlongNormal > 0`). -/
def ropeMoveB (normal correction : Vec2) (totalInverseMass k : ℚ)
    (b : Option MBody) : Option MBody :=
  match b with
  | some bb =>
    if bb.isStatic then some bb else
    let ratio := bb.inverseMass / totalInverseMass
    let move := vmul correction (-(ratio * k))
    if magSq move < 2500 then
      let b1 := translate bb move
      let velAlongNormal := vdot b1.velocity normal
      if velAlongNormal > 0 then
        some (setVelocity b1 (vsub b1.velocity (vmul normal (velAlongNormal * (1 / 2)))))
      else some b1
    else some bb
  | none => none

/-- `_solveIdealRope(rope)`: elastic ropes act as one-sided springs, ideal
ropes as a position-based distance constraint.  `sq` stands for
`Math.sqrt`; the `Number.isFinite` guard of the source is vacuous over ℚ. -/
def solveIdealRope (sq : ℚ → ℚ) (rope : Constraint)
    (bodyA bodyB : Option MBody) : SolveOut :=
  if bodyA.isNone && bodyB.isNone then ⟨bodyA, bodyB, false⟩ else
  let posA := worldAnchor bodyA rope.pointA
  let posB := worldAnchor bodyB rope.pointB
  let diffVec := vsub posB posA
  let currentDist := sq (magSq diffVec)
  if rope.isElastic then
    if currentDist > rope.length then
      let diff := currentDist - rope.length
      let normal := if currentDist > 1 / 10000 then vdiv diffVec currentDist else vzero
      let forceMag := orQ rope.stiffness (1 / 2) * diff
      if elasticBreak rope.maxForce forceMag then ⟨bodyA, bodyB, true⟩
      else
        let force := vmul normal forceMag
        ⟨applyIfDynamic bodyA posA force, applyIfDynamic bodyB posB (vneg force), false⟩
    else ⟨bodyA, bodyB, false⟩
  else
    if currentDist > rope.length then
      let diff := currentDist - rope.length
      if nonElasticBreak rope.maxForce diff then ⟨bodyA, bodyB, true⟩
      else
        let normal := if currentDist > 1 / 10000 then vdiv diffVec currentDist else vzero
        let correction := vmul normal diff
        let totalInverseMass := invMassOf bodyA + invMassOf bodyB
        if totalInverseMass > 0 then
          let k := ropeK rope.stiffness
          ⟨ropeMoveA normal correction totalInverseMass k bodyA,
           ropeMoveB normal correction totalInverseMass k bodyB, false⟩
        else ⟨bodyA, bodyB, false⟩
    else ⟨bodyA, bodyB, false⟩

/-- `_solveSpring(spring)`: a linear spring with damping, skipped below 0.1
units of separation and discarded above the 100000 force cap. -/
def solveSpring (sq : ℚ → ℚ) (spring : Constraint)
    (bodyA bodyB : Option MBody) : Option MBody × Option MBody :=
  if bodyA.isNone && bodyB.isNone then (bodyA, bodyB) else
  let posA := worldAnchor bodyA spring.pointA
  let posB := worldAnchor bodyB spring.pointB
  let diffVec := vsub posB posA
  let currentDist := sq (magSq diffVec)
  if currentDist < 1 / 10 then (bodyA, bodyB) else
  let diff := currentDist - spring.length
  let normal := vdiv diffVec currentDist
  let stiffness := orQ spring.stiffness (1 / 100)
  let damping := orQ spring.damping (1 / 10)
  let force := vmul normal (stiffness * diff)
  let velAlongNormal := vdot (vsub (optVel bodyB) (optVel bodyA)) normal
  let dampingForce := vmul normal (velAlongNormal * damping)
  let totalForce := vadd force dampingForce
  if magSq totalForce > 100000 * 100000 then (bodyA, bodyB) else
  (applyIfDynamic bodyA posA totalForce,
   applyIfDynamic bodyB posB (vneg totalForce))

/-- One side of the pulley solver: translate a dynamic body by `n * (lam *
w)` when under the 50-unit cap, then halve the velocity component moving
away from the pulley. -/
def pulleyMove (n : Vec2) (lam w : ℚ) (b : Option MBody) : Option MBody :=
  match b with
  | some bb =>
    if bb.isStatic then some bb else
    let correction := vmul n (lam * w)
    if magSq correction < 2500 then
      let b1 := translate bb correction
      let velAlong := vdot b1.velocity n
      if velAlong > 0 then
        some (setVelocity b1 (vsub b1.velocity (vmul n (velAlong * (1 / 2)))))
      else some b1
    else some bb
  | none => none

/-- `_solveIdealPulley(pulley)` of the current engine: a position-based
correction of the combined two-segment length. -/
def solveIdealPulley (sq : ℚ → ℚ) (pulley : Constraint)
    (bodyA bodyB : Option MBody) : Option MBody × Option MBody :=
  if bodyA.isNone && bodyB.isNone then (bodyA, bodyB) else
  let anchorA := worldAnchor bodyA pulley.pointA
  let anchorB := worldAnchor bodyB pulley.pointB
  let vecA := vsub anchorA pulley.pointC
  let vecB := vsub anchorB pulley.pointD
  let lenA := sq (magSq vecA)
  let lenB := sq (magSq vecB)
  let currentLen := lenA + lenB
  if currentLen > pulley.length then
    let diff := currentLen - pulley.length
    let nA := if lenA > 1 / 1000 then vdiv vecA lenA else vzero
    let nB := if lenB > 1 / 1000 then vdiv vecB lenB else vzero
    let wA := invMassOf bodyA
    let wB := invMassOf bodyB
    let totalInverseMass := wA + wB
    if totalInverseMass = 0 then (bodyA, bodyB) else
    let k := ropeK pulley.stiffness
    let lam := -diff / totalInverseMass * k
    (pulleyMove nA lam wA bodyA, pulleyMove nB lam wB bodyB)
  else (bodyA, bodyB)

/-- The render dimension `v !== undefined ? v : (radius ? radius * 2 :
50)` used by `_createBodyFromData` for width/height/depth. -/
def dimOr (v : Option ℚ) (r : Option ℚ) : ℚ :=
  match v with
  | some w => w
  | none =>
    match r with
    | some rr => if rr = 0 then 50 else rr * 2
    | none => 50

/-- The body angle chosen by `commonOptions`: `(side ? data.angle :
(data.angleTop || 0)) || 0`.  Both `|| 0` defaults collapse to the identity
rotation. -/
def angleFor (mode : ViewMode) (d : SceneObj) : Rot :=
  match mode with
  | ViewMode.side => d.angle.getD Rot.id
  | ViewMode.top => d.angleTop.getD Rot.id

/-- A body as the external engine constructs it from `commonOptions` at a
given position.  The engine derives mass, the vertex hull and the bounds
from the shape geometry; no modelled operation reads those initial values,
so placeholders stand in (unit mass, empty hull, degenerate bounds).
`commonOptions` does not set restitution, so it keeps the engine default
0. -/
def mkMBody (mode : ViewMode) (g : ℚ) (d : SceneObj) (pos : Vec2)
    (static : Bool) : MBody :=
  { position := pos, velocity := ⟨0, 0⟩, force := ⟨0, 0⟩, torque := 0,
    angle := angleFor mode d, isStatic := static, mass := 1, inverseMass := 1,
    friction := d.friction,
    frictionAir := d.frictionAir.getD g,
    restitution := 0, isPointMass := false,
    vertices := [], boundsMin := pos, boundsMax := pos }

/-- `_createBodyFromData(data)` with `g` the builder's global air
resistance.  Shape-specific geometry (vertex hulls, ellipse scaling,
chamfer) lives in the external engine and is not observable by the
modelled operations; what the branches determine here is the body's
position (bounding-box centre plus the centroid offset for the asymmetric
side-view shapes), the Text type's forced static flag, and whether a body
is produced at all.  The final steps apply `data.mass` (when truthy) and
`data.velocity` (when present). -/
def createBodyFromData (mode : ViewMode) (g : ℚ) (d : SceneObj) : Option MBody :=
  let renderX := d.x
  let renderY := if mode = ViewMode.side then d.y else d.z
  let renderW := dimOr d.width d.radius
  let renderH := if mode = ViewMode.side then dimOr d.height d.radius
    else dimOr d.depth d.radius
  let off : Vec2 :=
    if mode = ViewMode.side ∧ offsetFamily d.type then
      getCenterOffset d.type renderW renderH
    else ⟨0, 0⟩
  let shapeBody : Option MBody :=
    if d.type = SType.Rectangle ∨ d.type = SType.Box ∨ d.type = SType.Ground ∨
        d.type = SType.Wall ∨ d.type = SType.Conveyor then
      some (mkMBody mode g d ⟨renderX, renderY⟩ d.isStatic)
    else if d.customVertices.isSome then
      some (mkMBody mode g d ⟨renderX, renderY⟩ d.isStatic)
    else if d.type = SType.Circle then
      some (mkMBody mode g d ⟨renderX, renderY⟩ d.isStatic)
    else if d.type = SType.Triangle ∨ d.type = SType.Incline then
      if mode = ViewMode.side then
        some (mkMBody mode g d ⟨renderX + off.x, renderY + off.y⟩ d.isStatic)
      else some (mkMBody mode g d ⟨renderX, renderY⟩ d.isStatic)
    else if d.type = SType.Trapezoid then
      if mode = ViewMode.side then
        some (mkMBody mode g d ⟨renderX + off.x, renderY + off.y⟩ d.isStatic)
      else some (mkMBody mode g d ⟨renderX, renderY⟩ d.isStatic)
    else if d.type = SType.Capsule then
      some (mkMBody mode g d ⟨renderX, renderY⟩ d.isStatic)
    else if d.type = SType.Text then
      some (mkMBody mode g d ⟨renderX, renderY⟩ true)
    else if d.type = SType.Polygon then
      some (mkMBody mode g d ⟨renderX, renderY⟩ d.isStatic)
    else if d.type = SType.Cone then
      if mode = ViewMode.side then
        some (mkMBody mode g d ⟨renderX + off.x, renderY + off.y⟩ d.isStatic)
      else some (mkMBody mode g d ⟨renderX, renderY⟩ d.isStatic)
    else none
  let body : Option MBody :=
    if d.isPointMass then
      some { mkMBody mode g d ⟨renderX, renderY⟩ d.isStatic with isPointMass := true }
    else shapeBody
  body.map (fun b =>
    let b1 := if truthyQ d.mass then setMass b (d.mass.getD 0) else b
    match d.velocity with
    | some v => setVelocity b1 v
    | none => b1)

/-- `rebuildWorld()`: reset gravity for the view (top view disables it),
clear the body map and recreate one body per scene object. -/
def rebuildWorld (w : World) : World :=
  { w with
    gravityY := if w.mode = ViewMode.top then 0 else 1,
    entities := w.sceneData.foldl (fun acc p =>
      match createBodyFromData w.mode w.globalAirResistance p.2 with
      | some b => insertA acc p.2.id b
      | none => acc) [] }

/-- The body position written back by `syncToSceneData`: the raw position,
minus the centroid offset in side view for the asymmetric shapes (the
offset dimensions fall back to the body bounds when `data.width` /
`data.height` are falsy). -/
def resolvedPos (mode : ViewMode) (d : SceneObj) (b : MBody) : Vec2 :=
  if mode = ViewMode.side ∧ offsetFamily d.type then
    let renderW := orQ d.width (b.boundsMax.x - b.boundsMin.x)
    let renderH := orQ d.height (b.boundsMax.y - b.boundsMin.y)
    let off := getCenterOffset d.type renderW renderH
    ⟨b.position.x - off.x, b.position.y - off.y⟩
  else ⟨b.position.x, b.position.y⟩

/-- One object's write-back in `syncToSceneData`: side view stores the
resolved position into `x`/`y` and the angle into `angle`; top view stores
it into `x`/`z` and `angleTop`.  The record update leaves every other
field — in particular the other view's pair — unchanged. -/
def syncOne (mode : ViewMode) (d : SceneObj) (b : MBody) : SceneObj :=
  if mode = ViewMode.side then
    { d with x := (resolvedPos mode d b).x, y := (resolvedPos mode d b).y,
             angle := some b.angle }
  else
    { d with x := (resolvedPos mode d b).x, z := (resolvedPos mode d b).y,
             angleTop := some b.angle }

/-- `syncToSceneData()`: write every live body's state back into its
owning scene object; objects without a live body, and bodies without a
data record, are skipped. -/
def syncToSceneData (w : World) : World :=
  { w with sceneData := w.sceneData.map (fun p =>
      match lookupA w.entities p.1 with
      | some b => (p.1, syncOne w.mode p.2 b)
      | none => p) }

/-- `setViewMode(mode)`: no-op when unchanged, otherwise sync under the
outgoing mode, switch, rebuild. -/
def setViewMode (w : World) (mode : ViewMode) : World :=
  if w.mode = mode then w
  else rebuildWorld { syncToSceneData w with mode := mode }

/-- `removeObject(id)`: delete the live body and the scene record. -/
def removeObject (w : World) (id : String) : World :=
  { w with entities := removeA w.entities id,
           sceneData := removeA w.sceneData id }

/-- A partial update passed to `updateObject`: a present field is merged
over the stored record (rendering-only fields such as color and name are
not modelled — no modelled operation reads them back). -/
structure Updates where
  x : Option ℚ := none
  y : Option ℚ := none
  z : Option ℚ := none
  width : Option ℚ := none
  height : Option ℚ := none
  depth : Option ℚ := none
  radius : Option ℚ := none
  sides : Option ℚ := none
  angle : Option Rot := none
  angleTop : Option Rot := none
  isStatic : Option Bool := none
  mass : Option ℚ := none
  friction : Option ℚ := none
  frictionAir : Option ℚ := none
  restitution : Option ℚ := none
  velocity : Option Vec2 := none
  isPointMass : Option Bool := none
deriving DecidableEq, Repr

/-- The empty update object `{}`. -/
def emptyUpdates : Updates := {}

/-- A present optional update overrides the stored optional field. -/
def mergeOpt {α : Type} (u : Option α) (old : Option α) : Option α :=
  match u with
  | some v => some v
  | none => old

/-- `Object.assign(data, updates)`. -/
def mergeData (d : SceneObj) (u : Updates) : SceneObj :=
  { d with
    x := u.x.getD d.x
    y := u.y.getD d.y
    z := u.z.getD d.z
    width := mergeOpt u.width d.width
    height := mergeOpt u.height d.height
    depth := mergeOpt u.depth d.depth
    radius := mergeOpt u.radius d.radius
    sides := mergeOpt u.sides d.sides
    angle := mergeOpt u.angle d.angle
    angleTop := mergeOpt u.angleTop d.angleTop
    isStatic := u.isStatic.getD d.isStatic
    mass := mergeOpt u.mass d.mass
    friction := u.friction.getD d.friction
    frictionAir := mergeOpt u.frictionAir d.frictionAir
    restitution := u.restitution.getD d.restitution
    velocity := mergeOpt u.velocity d.velocity
    isPointMass := u.isPointMass.getD d.isPointMass }

/-- Matter.js `Body.setStatic`; the engine's mass/inertia bookkeeping is
not observed by any modelled operation. -/
def setStatic (b : MBody) (s : Bool) : MBody := { b with isStatic := s }

/-- The position `updateObject` writes into the live body: the merged
data's view coordinates plus the centroid offset for the asymmetric
side-view shapes.  The source passes the possibly-undefined `data.width` /
`data.height` straight into `_getCenterOffset`; an absent dimension is
modelled as 0 (in JS it would poison the offset with NaN; the theorems
below only cover records whose dimensions are present for offset shapes). -/
def updateTarget (mode : ViewMode) (d : SceneObj) : Vec2 :=
  let t : Vec2 := if mode = ViewMode.side then ⟨d.x, d.y⟩ else ⟨d.x, d.z⟩
  if mode = ViewMode.side ∧ offsetFamily d.type then
    vadd t (getCenterOffset d.type (d.width.getD 0) (d.height.getD 0))
  else t

/-- `_recreateBody(id)`: the old body is detached from the physics world
and the entity entry is overwritten when a replacement body is built (the
source never deletes the map entry itself). -/
def recreateBody (w : World) (id : String) : World :=
  match lookupA w.sceneData id with
  | none => w
  | some d =>
    match createBodyFromData w.mode w.globalAirResistance d with
    | some b => { w with entities := insertA w.entities d.id b }
    | none => w

/-- `updateObject(id, updates)`.  When no scene record exists the source
merges the updates into a constraint record of the same id; no modelled
claim reads that branch, so it is left as the identity (see the C10
analysis).  Otherwise: merge, set the angle for the active view when
updated, unconditionally reposition the body at the merged data's
coordinates, then either rebuild the body (when a dimension field was
truthy in the update) or apply the non-dimensional property updates. -/
def updateObject (w : World) (id : String) (u : Updates) : World :=
  match lookupA w.sceneData id with
  | none => w
  | some dOld =>
    let data := mergeData dOld u
    let w1 := { w with sceneData := updateA w.sceneData id data }
    match lookupA w.entities id with
    | none => w1
    | some body0 =>
      let body1 :=
        if w.mode = ViewMode.side then
          match u.angle with
          | some r => { body0 with angle := r }
          | none => body0
        else
          match u.angleTop with
          | some r => { body0 with angle := r }
          | none => body0
      let body2 := { body1 with position := updateTarget w.mode data }
      let w2 := { w1 with entities := updateA w1.entities id body2 }
      if truthyQ u.width || truthyQ u.height || truthyQ u.depth ||
          truthyQ u.radius || truthyQ u.sides || u.isPointMass.isSome then
        recreateBody w2 id
      else
        let b3 := match u.isStatic with
          | some s => setStatic body2 s
          | none => body2
        let b4 := match u.mass with
          | some m => setMass b3 m
          | none => b3
        let b5 := match u.friction with
          | some f => { b4 with friction := f }
          | none => b4
        let b6 := match u.frictionAir with
          | some f => { b5 with frictionAir := f }
          | none => b5
        let b7 := match u.restitution with
          | some r => { b6 with restitution := r }
          | none => b6
        let b8 := match u.velocity with
          | some v => setVelocity b7 v
          | none => b7
        { w2 with entities := updateA w2.entities id b8 }

/-- Ghost instrumentation of the `beforeUpdate` handler: one event per
solver dispatch, recording which solver ran for which constraint id. -/
inductive Ev where
  | spring (id : String)
  | elastic (id : String)
  | applyF (id : String)
  | ropePBD (id : String)
  | pulleyPBD (id : String)
deriving DecidableEq, Repr

/-- The constraint id an event belongs to. -/
def Ev.evId : Ev → String
  | Ev.spring i => i
  | Ev.elastic i => i
  | Ev.applyF i => i
  | Ev.ropePBD i => i
  | Ev.pulleyPBD i => i

/-- Whether an event belongs to the position-based phase. -/
def Ev.isPBD : Ev → Bool
  | Ev.ropePBD _ => true
  | Ev.pulleyPBD _ => true
  | _ => false

/-- Fresh per-tick resolution of a constraint's body reference
(`constraint.bodyAId ? this.entities[constraint.bodyAId] : null`). -/
def resolveRef (w : World) (oid : Option String) : Option MBody :=
  match oid with
  | some i => lookupA w.entities i
  | none => none

/-- Write an updated body back through a resolved reference: only a
referenced body that exists can have been mutated. -/
def setEntity (w : World) (oid : Option String) (ob : Option MBody) : World :=
  match oid, ob with
  | some i, some b => { w with entities := updateA w.entities i b }
  | _, _ => w

/-- `_removeConstraint(id)`. -/
def removeConstraint (w : World) (id : String) : World :=
  { w with constraints := w.constraints.filter (fun c => c.id ≠ id) }

/-- One constraint's treatment in the force-based section of the
`beforeUpdate` handler: friction constraints are skipped, a constraint
whose referenced body is missing is skipped, and springs, elastic ropes
and constant forces are solved once. -/
def phaseAStep (sq : ℚ → ℚ) (w : World) (cons : Constraint) : World × List Ev :=
  if cons.kind = CKind.friction then (w, []) else
  let bodyA := resolveRef w cons.bodyAId
  let bodyB := resolveRef w cons.bodyBId
  if (cons.bodyAId.isSome && bodyA.isNone) || (cons.bodyBId.isSome && bodyB.isNone) then
    (w, [])
  else if cons.kind = CKind.spring then
    let r := solveSpring sq cons bodyA bodyB
    (setEntity (setEntity w cons.bodyAId r.1) cons.bodyBId r.2, [Ev.spring cons.id])
  else if cons.kind = CKind.ideal_rope && cons.isElastic then
    let r := solveIdealRope sq cons bodyA bodyB
    let w1 := setEntity (setEntity w cons.bodyAId r.bodyA) cons.bodyBId r.bodyB
    (if r.removed then removeConstraint w1 cons.id else w1, [Ev.elastic cons.id])
  else if cons.kind = CKind.force then
    match bodyA with
    | some b => (setEntity w cons.bodyAId (some (applyForce b b.position cons.vector)),
        [Ev.applyF cons.id])
    | none => (w, [])
  else (w, [])

/-- The event `phaseAStep` will emit for a constraint, as a function of the
constraint and of which entity ids are present (body updates during the
pass never add or remove entity ids, so this is stable across the pass). -/
def phaseAEvent (w : World) (cons : Constraint) : Option Ev :=
  if cons.kind = CKind.friction then none
  else if (cons.bodyAId.isSome && (resolveRef w cons.bodyAId).isNone) ||
      (cons.bodyBId.isSome && (resolveRef w cons.bodyBId).isNone) then none
  else if cons.kind = CKind.spring then some (Ev.spring cons.id)
  else if cons.kind = CKind.ideal_rope && cons.isElastic then some (Ev.elastic cons.id)
  else if cons.kind = CKind.force then
    if (resolveRef w cons.bodyAId).isSome then some (Ev.applyF cons.id) else none
  else none

/-- The force-based section: one pass over the constraint list as it stood
when the handler fired (`forEach` iterates the captured array even if a
broken rope reassigns `this.customConstraints` mid-pass). -/
def phaseA (sq : ℚ → ℚ) (w : World) : World × List Ev :=
  w.constraints.foldl
    (fun acc c =>
      let r := phaseAStep sq acc.1 c
      (r.1, acc.2 ++ r.2)) (w, [])

/-- One constraint's treatment inside a position-based iteration:
non-elastic ideal ropes and pulleys are solved, everything else is
ignored. -/
def pbdStep (sq : ℚ → ℚ) (w : World) (cons : Constraint) : World × List Ev :=
  let bodyA := resolveRef w cons.bodyAId
  let bodyB := resolveRef w cons.bodyBId
  if (cons.bodyAId.isSome && bodyA.isNone) || (cons.bodyBId.isSome && bodyB.isNone) then
    (w, [])
  else if cons.kind = CKind.ideal_rope && !cons.isElastic then
    let r := solveIdealRope sq cons bodyA bodyB
    let w1 := setEntity (setEntity w cons.bodyAId r.bodyA) cons.bodyBId r.bodyB
    (if r.removed then removeConstraint w1 cons.id else w1, [Ev.ropePBD cons.id])
  else if cons.kind = CKind.pulley then
    let r := solveIdealPulley sq cons bodyA bodyB
    (setEntity (setEntity w cons.bodyAId r.1) cons.bodyBId r.2, [Ev.pulleyPBD cons.id])
  else (w, [])

/-- One position-based iteration: a pass over the constraint list as it
stands at the start of that iteration. -/
def pbdSweep (sq : ℚ → ℚ) (w : World) : World × List Ev :=
  w.constraints.foldl
    (fun acc c =>
      let r := pbdStep sq acc.1 c
      (r.1, acc.2 ++ r.2)) (w, [])

/-- `n` position-based iterations. -/
def pbdLoop (sq : ℚ → ℚ) : ℕ → World → World × List Ev
  | 0, w => (w, [])
  | n + 1, w =>
    let r := pbdSweep sq w
    let r2 := pbdLoop sq n r.1
    (r2.1, r.2 ++ r2.2)

/-- The `beforeUpdate` handler of `_registerCustomUpdate`: the force-based
section runs once, then the position-based kinds run `iterations = 10`
sweeps. -/
def beforeUpdate (sq : ℚ → ℚ) (w : World) : World × List Ev :=
  let a := phaseA sq w
  let b := pbdLoop sq 10 a.1
  (b.1, a.2 ++ b.2)

/-- Whether a collision-pair side is a Conveyor scene object. -/
def isConveyorData (o : Option SceneObj) : Bool :=
  match o with
  | some d => d.type = SType.Conveyor
  | none => false

/-- The average of the contact points reported by the collision pair. -/
def contactAvg (contacts : List Vec2) : Vec2 :=
  ⟨(contacts.map Vec2.x).sum / contacts.length,
   (contacts.map Vec2.y).sum / contacts.length⟩

/-- The conveyor-belt force application of `handleCollisions` (section B),
once a pair has been classified: `conveyorData.conveyorSpeed || 5` is the
target speed (the `speed` option stored by `createConveyorBelt` is not
consulted), the direction is the belt's tangent (cos angle, sin angle),
and the P-controller force `-diff * 0.5 * mass * (friction > 0 ? friction
: 0.1)` is applied at the average contact point, or at the body's centre
when no contacts are reported. -/
def conveyorStep (conveyorData : SceneObj) (conveyorBody targetBody : MBody)
    (contacts : List Vec2) : MBody :=
  let speed := orQ conveyorData.conveyorSpeed 5
  let angle := conveyorBody.angle
  let dir : Vec2 := ⟨angle.c, angle.s⟩
  let vAlongBelt := vdot targetBody.velocity dir
  let diff := vAlongBelt - speed
  let friction := conveyorBody.friction * targetBody.friction
  let k : ℚ := 1 / 2
  let forceMag := -diff * k * targetBody.mass * (if friction > 0 then friction else 1 / 10)
  let force := vmul dir forceMag
  if contacts ≠ [] then applyForce targetBody (contactAvg contacts) force
  else applyForce targetBody targetBody.position force

/-- The conveyor classification of one collision pair: the side whose
scene data has type Conveyor is the belt, the other the target; a static
target receives nothing. -/
def conveyorPair (dataA dataB : Option SceneObj) (bodyA bodyB : MBody)
    (contacts : List Vec2) : MBody × MBody :=
  if isConveyorData dataA then
    match dataA with
    | some da =>
      if bodyB.isStatic then (bodyA, bodyB)
      else (bodyA, conveyorStep da bodyA bodyB contacts)
    | none => (bodyA, bodyB)
  else if isConveyorData dataB then
    match dataB with
    | some db =>
      if bodyA.isStatic then (bodyA, bodyB)
      else (conveyorStep db bodyB bodyA contacts, bodyB)
    | none => (bodyA, bodyB)
  else (bodyA, bodyB)

/-- `_getLineIntersection(p1, p2, p3, p4)`: parametric segment-segment
intersection, `none` for parallel lines or out-of-range parameters. -/
def getLineIntersection (p1 p2 p3 p4 : Vec2) : Option Vec2 :=
  let denom := (p4.y - p3.y) * (p2.x - p1.x) - (p4.x - p3.x) * (p2.y - p1.y)
  if denom = 0 then none else
  let ua := ((p4.x - p3.x) * (p1.y - p3.y) - (p4.y - p3.y) * (p1.x - p3.x)) / denom
  let ub := ((p2.x - p1.x) * (p1.y - p3.y) - (p2.y - p1.y) * (p1.x - p3.x)) / denom
  if 0 ≤ ua ∧ ua ≤ 1 ∧ 0 ≤ ub ∧ ub ≤ 1 then
    some ⟨p1.x + ua * (p2.x - p1.x), p1.y + ua * (p2.y - p1.y)⟩
  else none

/-- Matter.js `Vertices.area(vertices, true)` (signed): library code of the
external engine, modelled exactly. -/
def verticesArea (vs : List Vec2) : ℚ :=
  ((List.range vs.length).foldl (fun acc i =>
    let vj := vs.getD ((i + vs.length - 1) % vs.length) vzero
    let vi := vs.getD i vzero
    acc + (vj.x - vi.x) * (vj.y + vi.y)) 0) / 2

/-- Matter.js `Vertices.centre(vertices)`: the area centroid.  Over ℚ a
zero-area loop yields the zero vector where JS would produce non-finite
coordinates; no theorem below evaluates that case. -/
def verticesCentre (vs : List Vec2) : Vec2 :=
  let area := verticesArea vs
  vdiv ((List.range vs.length).foldl (fun acc i =>
    let vi := vs.getD i vzero
    let vj := vs.getD ((i + 1) % vs.length) vzero
    let cross := vi.x * vj.y - vi.y * vj.x
    vadd acc (vmul (vadd vi vj) cross)) vzero) (6 * area)

/-- The intersections of the cut segment with every edge of the outline,
paired with the edge index.  Collected in ascending index order, so the
source's sort-by-index is the identity here. -/
def sliceIntersections (p1 p2 : Vec2) (vertices : List Vec2) : List (Vec2 × ℕ) :=
  (List.range vertices.length).filterMap (fun i =>
    (getLineIntersection p1 p2 (vertices.getD i vzero)
      (vertices.getD ((i + 1) % vertices.length) vzero)).map (fun pt => (pt, i)))

/-- The cut-line normal of `_sliceBody`: perpendicular to `p2 − p1`,
normalised by the segment length (zero for a degenerate segment). -/
def cutNormal (sq : ℚ → ℚ) (p1 p2 : Vec2) : Vec2 :=
  let dx := p2.x - p1.x
  let dy := p2.y - p1.y
  let len := sq (dx * dx + dy * dy)
  if len > 0 then ⟨-dy / len, dx / len⟩ else ⟨0, 0⟩

/-- The first vertex loop of `_sliceBody`: from the first intersection
through the vertices up to the second intersection's edge. -/
def sliceLoopA (vertices : List Vec2) (int1 int2 : Vec2 × ℕ) : List Vec2 :=
  [int1.1] ++ ((List.range' (int1.2 + 1) (int2.2 - int1.2)).map
    (fun i => vertices.getD (i % vertices.length) vzero)) ++ [int2.1]

/-- The second vertex loop: from the second intersection around the end of
the outline back to the first intersection's edge. -/
def sliceLoopB (vertices : List Vec2) (int1 int2 : Vec2 × ℕ) : List Vec2 :=
  [int2.1] ++ ((List.range' (int2.2 + 1)
    (vertices.length + int1.2 + 1 - (int2.2 + 1))).map
    (fun i => vertices.getD (i % vertices.length) vzero)) ++ [int1.1]

/-- The scene record `createPart` builds for one slice piece: a generic
non-static Polygon at the shifted centroid, carrying the loop relative to
its centroid in `customVertices` and inheriting every other field — the
`mass` field included — from the original object. -/
def partData (data : SceneObj) (normal : Vec2) (p1 : Vec2) (verts : List Vec2)
    (suffix : String) : SceneObj :=
  let centroid := verticesCentre verts
  let dot := vdot (vsub centroid p1) normal
  let shift : ℚ := if dot ≥ 0 then 2 else -2
  { data with
    id := data.id ++ suffix
    type := SType.Polygon
    x := centroid.x + normal.x * shift
    y := centroid.y + normal.y * shift
    customVertices := some (verts.map (fun v => vsub v centroid))
    isStatic := false }

/-- The physics body `createPart` builds via `Bodies.fromVertices`: a
dynamic body at the shifted centroid with engine-default material
parameters (friction 0.1, frictionAir 0.01), its hull recentred at the
body position, and — when the original data carries a truthy mass — half
that mass.  `fromVertices` can reject a degenerate hull in JS; the loops
produced by a two-point slice of a real outline are never degenerate, and
the model builds the body unconditionally. -/
def partBody (data : SceneObj) (normal : Vec2) (p1 : Vec2) (verts : List Vec2) :
    MBody :=
  let centroid := verticesCentre verts
  let dot := vdot (vsub centroid p1) normal
  let shift : ℚ := if dot ≥ 0 then 2 else -2
  let pos : Vec2 := ⟨centroid.x + normal.x * shift, centroid.y + normal.y * shift⟩
  let b : MBody :=
    { position := pos, velocity := ⟨0, 0⟩, force := ⟨0, 0⟩, torque := 0,
      angle := Rot.id, isStatic := false, mass := 1, inverseMass := 1,
      friction := 1 / 10, frictionAir := 1 / 100, restitution := 0,
      isPointMass := false,
      vertices := verts.map (fun v => vadd (vsub v centroid) pos),
      boundsMin := pos, boundsMax := pos }
  if truthyQ data.mass then setMass b (data.mass.getD 0 / 2) else b

/-- `createPart(verts, suffix)`: insert the new scene record and its
body. -/
def createPart (w : World) (data : SceneObj) (normal : Vec2) (p1 : Vec2)
    (verts : List Vec2) (suffix : String) : World :=
  let newData := partData data normal p1 verts suffix
  { w with
    sceneData := insertA w.sceneData newData.id newData,
    entities := insertA w.entities newData.id (partBody data normal p1 verts) }

/-- `_sliceBody(body, p1, p2, data)`: intersect the cut line with every
edge of the body's current outline; with exactly two intersections,
remove the original object and create the two parts, otherwise change
nothing. -/
def sliceBody (sq : ℚ → ℚ) (w : World) (body : MBody) (p1 p2 : Vec2)
    (data : SceneObj) : World :=
  let vertices := body.vertices
  let ints := sliceIntersections p1 p2 vertices
  if ints.length = 2 then
    let int1 := ints.getD 0 (vzero, 0)
    let int2 := ints.getD 1 (vzero, 0)
    let verticesA := sliceLoopA vertices int1 int2
    let verticesB := sliceLoopB vertices int1 int2
    let w1 := removeObject w data.id
    let normal := cutNormal sq p1 p2
    let w2 := createPart w1 data normal p1 verticesA "_A"
    createPart w2 data normal p1 verticesB "_B"
  else w

/-- Square-root oracle used by the concrete test fixtures below: a finite
table of the perfect squares those fixtures produce. -/
def sqTab (q : ℚ) : ℚ :=
  if q = 25 then 5 else if q = 36 then 6 else if q = 100 then 10
  else if q = 3025 then 55 else 0

/-- Test fixture: a default dynamic Box scene record. -/
def baseObj : SceneObj :=
  { id := "o", type := SType.Box, x := 0, y := 0, z := 0,
    width := none, height := none, depth := none, radius := none, sides := none,
    angle := none, angleTop := none, isStatic := false, friction := 0,
    frictionAir := none, restitution := 0, mass := none, velocity := none,
    customVertices := none, isPointMass := false, conveyorSpeed := none,
    speed := none }

/-- Test fixture: a unit-mass dynamic body at the origin. -/
def baseBody : MBody :=
  { position := ⟨0, 0⟩, velocity := ⟨0, 0⟩, force := ⟨0, 0⟩, torque := 0,
    angle := Rot.id, isStatic := false, mass := 1, inverseMass := 1,
    friction := 0, frictionAir := 0, restitution := 0, isPointMass := false,
    vertices := [], boundsMin := ⟨0, 0⟩, boundsMax := ⟨0, 0⟩ }

/-- Test fixture: a neutral constraint record. -/
def baseCons : Constraint :=
  { id := "c", kind := CKind.ideal_rope, bodyAId := some "a", bodyBId := none,
    pointA := ⟨0, 0⟩, pointB := ⟨0, 0⟩, pointC := ⟨0, 0⟩, pointD := ⟨0, 0⟩,
    length := 0, maxForce := none, isElastic := false, stiffness := none,
    damping := none, vector := ⟨0, 0⟩, friction := 0 }

/-- Test fixture: a non-elastic rope of rest length 5 anchored at the world
point (10, 0), stiffness 1/2. -/
def ropeF1 : Constraint :=
  { baseCons with pointB := ⟨10, 0⟩, length := 5, stiffness := some (1 / 2) }

/-- Test fixture: a dynamic body moving away from the rope anchor. -/
def bodyF1 : MBody := { baseBody with velocity := ⟨-1, 0⟩ }

/-- Test fixture: a pulley whose excess length (54) exceeds the 50-unit
movement cap. -/
def pulF7 : Constraint :=
  { baseCons with
    kind := CKind.pulley
    pointC := ⟨55, 0⟩
    length := 1
    stiffness := some 1 }

/-- Test fixture: a pulley with a small excess length (2). -/
def pulF7w : Constraint :=
  { baseCons with
    kind := CKind.pulley
    pointC := ⟨3, 4⟩
    length := 3
    stiffness := some 1 }

/-- Test fixture: a stretched spring anchored at the world point (3, 4). -/
def sprF9 : Constraint :=
  { baseCons with
    kind := CKind.spring
    pointB := ⟨3, 4⟩
    length := 4
    stiffness := some 2
    damping := some 1 }

/-- Test fixture: a dynamic body with horizontal velocity for the spring
damping term. -/
def bodyF9 : MBody := { baseBody with velocity := ⟨1, 0⟩ }

/-- Test fixture: the taut rope of `ropeF1` with a breaking threshold. -/
def ropeF6 : Constraint := { ropeF1 with maxForce := some 10 }

/-- Test fixture: a world with one body and no constraints. -/
def wF6 : World :=
  { mode := ViewMode.side, sceneData := [], entities := [("a", baseBody)],
    constraints := [], gravityY := 1, globalAirResistance := 0 }

/-- Test fixture: a Box record away from the origin. -/
def objC3 : SceneObj :=
  { baseObj with x := 1, y := 2, z := 7, width := some 10, height := some 10 }

/-- Test fixture: a body that has drifted to (30, 40) and turned 90°. -/
def bodyC3 : MBody := { baseBody with position := ⟨30, 40⟩, angle := ⟨0, 1⟩ }

/-- Test fixture: a one-object side-view world for the view switch. -/
def wC3 : World :=
  { mode := ViewMode.side, sceneData := [("o", objC3)],
    entities := [("o", bodyC3)], constraints := [], gravityY := 1,
    globalAirResistance := 0 }

/-- Test fixture: a Box record whose stored coordinates are (100, 100). -/
def objC10 : SceneObj :=
  { baseObj with x := 100, y := 100, width := some 50, height := some 50 }

/-- Test fixture: the live body for `objC10`, drifted to (150, 200). -/
def bodyC10 : MBody := { baseBody with position := ⟨150, 200⟩, velocity := ⟨3, 4⟩ }

/-- Test fixture: a one-object world whose body has moved since the scene
data was last synced. -/
def wC10 : World :=
  { mode := ViewMode.side, sceneData := [("o", objC10)],
    entities := [("o", bodyC10)], constraints := [], gravityY := 1,
    globalAirResistance := 0 }

/-- Test fixture: the scene record of a 4×4 square of mass 8. -/
def dataSq : SceneObj :=
  { baseObj with id := "obj", mass := some 8, width := some 4, height := some 4 }

/-- Test fixture: the live body of the square, with its world-space
outline. -/
def bodySq : MBody :=
  { baseBody with vertices := [⟨0, 0⟩, ⟨4, 0⟩, ⟨4, 4⟩, ⟨0, 4⟩], mass := 8 }

/-- Test fixture: a world holding just the square. -/
def wSlice : World :=
  { mode := ViewMode.side, sceneData := [("obj", dataSq)],
    entities := [("obj", bodySq)], constraints := [], gravityY := 1,
    globalAirResistance := 0 }

/-- Test fixture: a conveyor scene record (its `conveyorSpeed` is unset,
so the handler's `|| 5` default applies). -/
def beltData : SceneObj := { baseObj with id := "belt", type := SType.Conveyor }

/-- Test fixture: a frictionless static belt body. -/
def beltZero : MBody := { baseBody with isStatic := true, friction := 0 }

/-- Test fixture: a contacting body slower than the belt. -/
def targZero : MBody := { baseBody with velocity := ⟨2, 0⟩, friction := 1 }

/-- Test fixture: a belt body with friction 1/2. -/
def beltF8 : MBody := { baseBody with isStatic := true, friction := 1 / 2 }

/-- C4: the centroid offset is `(w/6, h/6)` for Triangle/Incline, `(0, h/6)`
for Cone, `(0, h²/(6·(2w−h)))` for Trapezoid clamped to `(0,0)` whenever the
denominator `6·(2w−h)` is non-positive, and `(0,0)` for every other shape
type, for every width and height. -/
theorem centerOffset_spec (w h : ℚ) :
    getCenterOffset SType.Triangle w h = ⟨w / 6, h / 6⟩ ∧
    getCenterOffset SType.Incline w h = ⟨w / 6, h / 6⟩ ∧
    getCenterOffset SType.Cone w h = ⟨0, h / 6⟩ ∧
    (6 * (2 * w - h) ≤ 0 → getCenterOffset SType.Trapezoid w h = ⟨0, 0⟩) ∧
    (0 < 6 * (2 * w - h) →
      getCenterOffset SType.Trapezoid w h = ⟨0, h * h / (6 * (2 * w - h))⟩) ∧
    (∀ t : SType, t ≠ SType.Triangle → t ≠ SType.Incline → t ≠ SType.Cone →
      t ≠ SType.Trapezoid → getCenterOffset t w h = ⟨0, 0⟩) := by
  refine ⟨rfl, rfl, rfl, ?_, ?_, ?_⟩
  · intro hle
    simp [getCenterOffset, hle]
  · intro hpos
    simp [getCenterOffset, not_le.mpr hpos]
  · intro t h1 h2 h3 h4
    cases t <;> simp_all [getCenterOffset]

/-- Witness for `centerOffset_spec`: evaluates the offsets, including a
clamped trapezoid (w = 1, h = 4: denominator −12) and a regular one
(w = 4, h = 2: denominator 36). -/
theorem centerOffset_spec_witness :
    getCenterOffset SType.Trapezoid 1 4 = ⟨0, 0⟩ ∧
    getCenterOffset SType.Trapezoid 4 2 = ⟨0, 2 * 2 / (6 * (2 * 4 - 2))⟩ ∧
    getCenterOffset SType.Box 3 7 = ⟨0, 0⟩ := by
  refine ⟨(centerOffset_spec 1 4).2.2.2.1 (by norm_num),
    ?_, (centerOffset_spec 3 7).2.2.2.2.2 SType.Box
      (by decide) (by decide) (by decide) (by decide)⟩
  exact (centerOffset_spec 4 2).2.2.2.2.1 (by norm_num)

/-- A force along a fixed direction is additive in its scalar factors. -/
theorem vmul_vmul_add (n : Vec2) (a b : ℚ) :
    vadd (vmul n a) (vmul n b) = vmul n (a + b) := by
  cases n
  simp only [vadd, vmul, Vec2.mk.injEq]
  constructor <;> ring

/-- C9: for every spring constraint the solver pass is skipped entirely when
the anchor distance is below 0.1 units; otherwise the total force applied
along the normal equals stiffness × (currentDistance − restLength) plus
damping × (relativeVelocity · normal), and whenever that total force's
squared magnitude exceeds the 100000² cap it is discarded rather than
applied.  `d`, `normal` and `total` are the source's intermediate values,
pinned by the equation hypotheses; `sq` models `Math.sqrt`. -/
theorem solveSpring_spec (sq : ℚ → ℚ) (spring : Constraint)
    (bodyA bodyB : Option MBody) (d : ℚ) (normal total : Vec2)
    (hd : d = sq (magSq (vsub (worldAnchor bodyB spring.pointB)
      (worldAnchor bodyA spring.pointA))))
    (hn : normal = vdiv (vsub (worldAnchor bodyB spring.pointB)
      (worldAnchor bodyA spring.pointA)) d)
    (ht : total = vmul normal (orQ spring.stiffness (1 / 100) * (d - spring.length) +
        orQ spring.damping (1 / 10) * vdot (vsub (optVel bodyB) (optVel bodyA)) normal)) :
    (d < 1 / 10 → solveSpring sq spring bodyA bodyB = (bodyA, bodyB)) ∧
    (¬ d < 1 / 10 → magSq total > 100000 * 100000 →
      solveSpring sq spring bodyA bodyB = (bodyA, bodyB)) ∧
    (¬ d < 1 / 10 → ¬ magSq total > 100000 * 100000 →
      solveSpring sq spring bodyA bodyB =
        (applyIfDynamic bodyA (worldAnchor bodyA spring.pointA) total,
         applyIfDynamic bodyB (worldAnchor bodyB spring.pointB) (vneg total))) := by
  have htotal : total = vadd (vmul normal (orQ spring.stiffness (1 / 100) * (d - spring.length)))
      (vmul normal (vdot (vsub (optVel bodyB) (optVel bodyA)) normal * orQ spring.damping (1 / 10))) := by
    rw [vmul_vmul_add, ht, mul_comm (orQ spring.damping (1 / 10))]
  by_cases hAB : bodyA.isNone && bodyB.isNone
  · have hA : bodyA = none := by
      cases bodyA <;> simp_all
    have hB : bodyB = none := by
      cases bodyB <;> simp_all
    subst hA hB
    refine ⟨fun _ => ?_, fun _ _ => ?_, fun _ _ => ?_⟩ <;>
      simp [solveSpring, applyIfDynamic]
  · refine ⟨fun hlt => ?_, fun hge hcap => ?_, fun hge hcap => ?_⟩
    · simp only [solveSpring, hAB, Bool.false_eq_true, if_false, ← hd]
      rw [if_pos hlt]
    · simp only [solveSpring, hAB, Bool.false_eq_true, if_false, ← hd, ← hn]
      rw [if_neg hge, ← htotal, if_pos hcap]
    · simp only [solveSpring, hAB, Bool.false_eq_true, if_false, ← hd, ← hn]
      rw [if_neg hge, ← htotal, if_neg hcap]

/-- Witness for `solveSpring_spec`: a spring of rest length 4 stretched to
distance 5 (a 3-4-5 anchor), stiffness 2 and damping 1, applied to a
dynamic body; the resulting force is the normal times 2·(5−4) + 1·(−3/5). -/
theorem solveSpring_spec_witness :
    ¬(5 : ℚ) < 1 / 10 ∧
    ¬magSq (⟨21 / 25, 28 / 25⟩ : Vec2) > 100000 * 100000 ∧
    solveSpring sqTab sprF9 (some bodyF9) none =
      (some (applyForce bodyF9 ⟨0, 0⟩ ⟨21 / 25, 28 / 25⟩), none) := by
  refine ⟨by norm_num, by norm_num [magSq], ?_⟩
  have h := (solveSpring_spec sqTab sprF9 (some bodyF9) none 5
      ⟨3 / 5, 4 / 5⟩ ⟨21 / 25, 28 / 25⟩
      (by norm_num [sqTab, sprF9, baseCons, bodyF9, baseBody, worldAnchor, vadd,
        vsub, vrot, vzero, magSq, Rot.id])
      (by norm_num [sprF9, baseCons, bodyF9, baseBody, worldAnchor, vadd, vsub,
        vrot, vzero, vdiv, Rot.id])
      (by norm_num [sprF9, baseCons, bodyF9, baseBody, orQ, optVel, vmul, vdot,
        vsub, vzero])).2.2
    (by norm_num) (by norm_num [magSq])
  rw [h]
  norm_num [applyIfDynamic, sprF9, baseCons, bodyF9, baseBody, worldAnchor, vadd,
    vrot, vzero, Rot.id]

/-- C1 (amended): one pass of the non-elastic ideal-rope solver changes
nothing when the anchor distance is at most the rest length; when the
distance exceeds it (and no `maxForce` break fires and some endpoint is
dynamic), each dynamic endpoint is translated along the connecting normal
by the excess distance times the stiffness factor times its share of the
inverse mass — provided that movement is below the 50-unit safety cap,
otherwise that body is left untouched — and the velocity component along
the normal that would re-stretch the rope is then halved (multiplied by
0.5), not removed. -/
theorem idealRope_pbd_spec (sq : ℚ → ℚ) (rope : Constraint)
    (bodyA bodyB : Option MBody) (d : ℚ) (normal correction : Vec2) (W k : ℚ)
    (hEl : rope.isElastic = false)
    (hd : d = sq (magSq (vsub (worldAnchor bodyB rope.pointB)
      (worldAnchor bodyA rope.pointA))))
    (hn : normal = if d > 1 / 10000 then
      vdiv (vsub (worldAnchor bodyB rope.pointB) (worldAnchor bodyA rope.pointA)) d
      else vzero)
    (hc : correction = vmul normal (d - rope.length))
    (hW : W = invMassOf bodyA + invMassOf bodyB)
    (hk : k = ropeK rope.stiffness) :
    (¬ d > rope.length → solveIdealRope sq rope bodyA bodyB = ⟨bodyA, bodyB, false⟩) ∧
    (d > rope.length → nonElasticBreak rope.maxForce (d - rope.length) = false →
      W > 0 →
      (solveIdealRope sq rope bodyA bodyB).removed = false ∧
      (∀ ba : MBody, bodyA = some ba → ba.isStatic = false →
        (magSq (vmul correction (ba.inverseMass / W * k)) < 2500 →
          (solveIdealRope sq rope bodyA bodyB).bodyA = some (
            if vdot ba.velocity normal < 0 then
              setVelocity (translate ba (vmul correction (ba.inverseMass / W * k)))
                (vsub ba.velocity (vmul normal (vdot ba.velocity normal * (1 / 2))))
            else translate ba (vmul correction (ba.inverseMass / W * k)))) ∧
        (¬ magSq (vmul correction (ba.inverseMass / W * k)) < 2500 →
          (solveIdealRope sq rope bodyA bodyB).bodyA = some ba)) ∧
      (∀ bb : MBody, bodyB = some bb → bb.isStatic = false →
        (magSq (vmul correction (-(bb.inverseMass / W * k))) < 2500 →
          (solveIdealRope sq rope bodyA bodyB).bodyB = some (
            if vdot bb.velocity normal > 0 then
              setVelocity (translate bb (vmul correction (-(bb.inverseMass / W * k))))
                (vsub bb.velocity (vmul normal (vdot bb.velocity normal * (1 / 2))))
            else translate bb (vmul correction (-(bb.inverseMass / W * k))))) ∧
        (¬ magSq (vmul correction (-(bb.inverseMass / W * k))) < 2500 →
          (solveIdealRope sq rope bodyA bodyB).bodyB = some bb))) := by
  by_cases hAB : bodyA.isNone && bodyB.isNone
  · have hA : bodyA = none := by cases bodyA <;> simp_all
    have hB : bodyB = none := by cases bodyB <;> simp_all
    subst hA hB
    refine ⟨fun _ => by simp [solveIdealRope], fun _ _ hWpos => ?_⟩
    rw [hW] at hWpos
    simp [invMassOf] at hWpos
  · constructor
    · intro hslack
      simp only [solveIdealRope, hAB, Bool.false_eq_true, if_false, ← hd, hEl]
      rw [if_neg hslack]
    · intro htaut hnb hWpos
      have hres : solveIdealRope sq rope bodyA bodyB =
          ⟨ropeMoveA normal correction W k bodyA,
           ropeMoveB normal correction W k bodyB, false⟩ := by
        simp only [solveIdealRope, hAB, Bool.false_eq_true, if_false, ← hd, hEl, ← hn,
          ← hc, ← hW, ← hk]
        rw [if_pos htaut, if_neg (by simp [hnb]), if_pos hWpos]
      rw [hres]
      refine ⟨rfl, ?_, ?_⟩
      · intro ba hba hstat
        subst hba
        constructor
        · intro hcap
          simp only [ropeMoveA, hstat, Bool.false_eq_true, if_false, if_pos hcap]
          rw [apply_ite some]
          rfl
        · intro hcap
          simp only [ropeMoveA, hstat, Bool.false_eq_true, if_false, if_neg hcap]
      · intro bb hbb hstat
        subst hbb
        constructor
        · intro hcap
          simp only [ropeMoveB, hstat, Bool.false_eq_true, if_false, if_pos hcap]
          rw [apply_ite some]
          rfl
        · intro hcap
          simp only [ropeMoveB, hstat, Bool.false_eq_true, if_false, if_neg hcap]

/-- C1 counterexample: a taut rope (distance 10, rest length 5) attached to
a dynamic body receding at velocity (−1, 0).  After one solver pass the
velocity component along the connecting normal is −1/2, not 0: the solver
halves the re-stretching component instead of removing it, refuting the
claim as stated. -/
theorem idealRope_velocity_only_halved :
    (solveIdealRope sqTab ropeF1 (some bodyF1) none).bodyA =
      some { bodyF1 with position := ⟨5 / 2, 0⟩, velocity := ⟨-(1 / 2), 0⟩ } ∧
    sqTab (magSq (vsub (worldAnchor none ropeF1.pointB)
      (worldAnchor (some bodyF1) ropeF1.pointA))) = 10 ∧
    (10 : ℚ) > ropeF1.length ∧
    vdot bodyF1.velocity ⟨1, 0⟩ = -1 ∧
    vdot (⟨-(1 / 2), 0⟩ : Vec2) ⟨1, 0⟩ ≠ 0 := by
  refine ⟨?_, ?_, ?_, ?_, ?_⟩
  · norm_num [solveIdealRope, sqTab, ropeF1, bodyF1, baseCons, baseBody, worldAnchor,
      vadd, vsub, vmul, vdiv, vdot, vrot, vzero, magSq, Rot.id, nonElasticBreak,
      invMassOf, ropeK, ropeMoveA, ropeMoveB, translate, setVelocity]
  · norm_num [sqTab, ropeF1, bodyF1, baseCons, baseBody, worldAnchor, vadd, vsub,
      vrot, vzero, magSq, Rot.id]
  · norm_num [ropeF1, baseCons]
  · norm_num [bodyF1, baseBody, vdot]
  · norm_num [vdot]

/-- Witness for `idealRope_pbd_spec`: the taut fixture rope translates the
dynamic body by 5·(1/2) along the normal and halves its receding velocity
component. -/
theorem idealRope_pbd_spec_witness :
    (10 : ℚ) > ropeF1.length ∧
    nonElasticBreak ropeF1.maxForce (10 - ropeF1.length) = false ∧
    (1 : ℚ) > 0 ∧
    (solveIdealRope sqTab ropeF1 (some bodyF1) none).bodyA =
      some { bodyF1 with position := ⟨5 / 2, 0⟩, velocity := ⟨-(1 / 2), 0⟩ } := by
  refine ⟨by norm_num [ropeF1, baseCons], rfl, by norm_num, ?_⟩
  have h := ((idealRope_pbd_spec sqTab ropeF1 (some bodyF1) none 10 ⟨1, 0⟩ ⟨5, 0⟩ 1 (1 / 2)
      rfl
      (by norm_num [sqTab, ropeF1, bodyF1, baseCons, baseBody, worldAnchor, vadd,
        vsub, vrot, vzero, magSq, Rot.id])
      (by norm_num [ropeF1, baseCons, bodyF1, baseBody, worldAnchor, vadd, vsub,
        vrot, vzero, vdiv, Rot.id])
      (by norm_num [ropeF1, baseCons, vmul])
      (by norm_num [invMassOf, bodyF1, baseBody])
      (by norm_num [ropeK, ropeF1, baseCons])).2
    (by norm_num [ropeF1, baseCons])
    rfl
    (by norm_num)).2.1 bodyF1 rfl rfl
  have h2 := h.1 (by norm_num [magSq, vmul, bodyF1, baseBody])
  rw [h2]
  norm_num [bodyF1, baseBody, vdot, vmul, vadd, vsub, translate, setVelocity]

/-- C7 (amended): the pulley solver changes nothing when the combined
segment length `lenA + lenB` is at most the rest length; when it exceeds it
and some endpoint is dynamic, each dynamic body is translated toward its
own fixed pulley point along that segment's direction by the excess length
times the stiffness factor times its inverse-mass share — provided that
correction is below the 50-unit safety cap, otherwise that body's position
is left unchanged. -/
theorem idealPulley_spec (sq : ℚ → ℚ) (pulley : Constraint)
    (bodyA bodyB : Option MBody) (lenA lenB : ℚ) (nA nB : Vec2) (W k lam : ℚ)
    (hlA : lenA = sq (magSq (vsub (worldAnchor bodyA pulley.pointA) pulley.pointC)))
    (hlB : lenB = sq (magSq (vsub (worldAnchor bodyB pulley.pointB) pulley.pointD)))
    (hnA : nA = if lenA > 1 / 1000 then
      vdiv (vsub (worldAnchor bodyA pulley.pointA) pulley.pointC) lenA else vzero)
    (hnB : nB = if lenB > 1 / 1000 then
      vdiv (vsub (worldAnchor bodyB pulley.pointB) pulley.pointD) lenB else vzero)
    (hW : W = invMassOf bodyA + invMassOf bodyB)
    (hk : k = ropeK pulley.stiffness)
    (hlam : lam = -(lenA + lenB - pulley.length) / W * k) :
    (¬ lenA + lenB > pulley.length →
      solveIdealPulley sq pulley bodyA bodyB = (bodyA, bodyB)) ∧
    (lenA + lenB > pulley.length → ¬ W = 0 →
      (∀ ba : MBody, bodyA = some ba → ba.isStatic = false →
        (magSq (vmul nA (lam * ba.inverseMass)) < 2500 →
          ((solveIdealPulley sq pulley bodyA bodyB).1).map MBody.position =
            some (vadd ba.position (vmul nA (lam * ba.inverseMass)))) ∧
        (¬ magSq (vmul nA (lam * ba.inverseMass)) < 2500 →
          ((solveIdealPulley sq pulley bodyA bodyB).1).map MBody.position =
            some ba.position)) ∧
      (∀ bb : MBody, bodyB = some bb → bb.isStatic = false →
        (magSq (vmul nB (lam * bb.inverseMass)) < 2500 →
          ((solveIdealPulley sq pulley bodyA bodyB).2).map MBody.position =
            some (vadd bb.position (vmul nB (lam * bb.inverseMass)))) ∧
        (¬ magSq (vmul nB (lam * bb.inverseMass)) < 2500 →
          ((solveIdealPulley sq pulley bodyA bodyB).2).map MBody.position =
            some bb.position))) := by
  by_cases hAB : bodyA.isNone && bodyB.isNone
  · have hA : bodyA = none := by cases bodyA <;> simp_all
    have hB : bodyB = none := by cases bodyB <;> simp_all
    subst hA hB
    refine ⟨fun _ => by simp [solveIdealPulley], fun _ hWpos => ?_⟩
    refine ⟨fun ba hba => by simp_all, fun bb hbb => by simp_all⟩
  · constructor
    · intro hslack
      simp only [solveIdealPulley, hAB, Bool.false_eq_true, if_false, ← hlA, ← hlB]
      rw [if_neg hslack]
    · intro htaut hWne
      have hres : solveIdealPulley sq pulley bodyA bodyB =
          (pulleyMove nA lam (invMassOf bodyA) bodyA,
           pulleyMove nB lam (invMassOf bodyB) bodyB) := by
        simp only [solveIdealPulley, hAB, Bool.false_eq_true, if_false, ← hlA, ← hlB,
          ← hnA, ← hnB, ← hW, ← hk]
        rw [if_pos htaut, if_neg hWne, ← hlam]
      rw [hres]
      constructor
      · intro ba hba hstat
        subst hba
        have hinv : invMassOf (some ba) = ba.inverseMass := by
          simp [invMassOf, hstat]
        rw [hinv]
        constructor
        · intro hcap
          simp only [pulleyMove, hstat, Bool.false_eq_true, if_false, if_pos hcap]
          split <;> simp [setVelocity, translate]
        · intro hcap
          simp [pulleyMove, hstat, hcap]
      · intro bb hbb hstat
        subst hbb
        have hinv : invMassOf (some bb) = bb.inverseMass := by
          simp [invMassOf, hstat]
        rw [hinv]
        constructor
        · intro hcap
          simp only [pulleyMove, hstat, Bool.false_eq_true, if_false, if_pos hcap]
          split <;> simp [setVelocity, translate]
        · intro hcap
          simp [pulleyMove, hstat, hcap]

/-- C7 counterexample: a pulley whose excess length is 54 prescribes a
54-unit translation of the dynamic body toward its pulley point, but the
solver's 50-unit cap (`magSq < 2500`) leaves the body completely unchanged,
refuting the unconditional translation claim. -/
theorem idealPulley_cap_skips_translation :
    (solveIdealPulley sqTab pulF7 (some baseBody) none).1 = some baseBody ∧
    sqTab (magSq (vsub (worldAnchor (some baseBody) pulF7.pointA) pulF7.pointC)) +
      sqTab (magSq (vsub (worldAnchor none pulF7.pointB) pulF7.pointD)) >
        pulF7.length ∧
    baseBody.isStatic = false ∧
    vmul ⟨-1, 0⟩ (-(55 + 0 - pulF7.length) / 1 * 1 * baseBody.inverseMass) = ⟨54, 0⟩ ∧
    (⟨54, 0⟩ : Vec2) ≠ (⟨0, 0⟩ : Vec2) := by
  refine ⟨?_, ?_, rfl, ?_, by simp [Vec2.mk.injEq]⟩
  · norm_num [solveIdealPulley, sqTab, pulF7, baseCons, baseBody, worldAnchor, vadd,
      vsub, vmul, vdiv, vdot, vrot, vzero, magSq, Rot.id, invMassOf, ropeK,
      pulleyMove, translate, setVelocity]
  · norm_num [sqTab, pulF7, baseCons, baseBody, worldAnchor, vadd, vsub, vrot,
      vzero, magSq, Rot.id]
  · norm_num [pulF7, baseCons, baseBody, vmul]

/-- Witness for `idealPulley_spec`: a pulley with segment lengths 5 + 0 and
rest length 3 translates the dynamic body by 2 units toward its pulley
point along the (3,4)/5 direction. -/
theorem idealPulley_spec_witness :
    (5 : ℚ) + 0 > pulF7w.length ∧ ¬(1 : ℚ) = 0 ∧
    ((solveIdealPulley sqTab pulF7w (some baseBody) none).1).map MBody.position =
      some ⟨6 / 5, 8 / 5⟩ := by
  refine ⟨by norm_num [pulF7w, baseCons], by norm_num, ?_⟩
  have h := ((idealPulley_spec sqTab pulF7w (some baseBody) none 5 0
      ⟨-(3 / 5), -(4 / 5)⟩ vzero 1 1 (-2)
      (by norm_num [sqTab, pulF7w, baseCons, baseBody, worldAnchor, vadd, vsub,
        vrot, vzero, magSq, Rot.id])
      (by norm_num [sqTab, pulF7w, baseCons, worldAnchor, vzero, vsub, magSq])
      (by norm_num [pulF7w, baseCons, baseBody, worldAnchor, vadd, vsub, vrot,
        vzero, vdiv, Rot.id])
      (by norm_num [vzero])
      (by norm_num [invMassOf, baseBody])
      (by norm_num [ropeK, pulF7w, baseCons])
      (by norm_num [pulF7w, baseCons])).2
    (by norm_num [pulF7w, baseCons])
    (by norm_num)).1 baseBody rfl rfl
  have h2 := h.1 (by norm_num [magSq, vmul, baseBody])
  rw [h2]
  norm_num [baseBody, vadd, vmul]

/-- Unfolding equation for `updateA` on a cons cell. -/
theorem updateA_cons {α : Type} (p : String × α) (rest : List (String × α))
    (k : String) (v : α) :
    updateA (p :: rest) k v = (if p.1 = k then (k, v) else p) :: updateA rest k v := rfl

/-- Unfolding equation for `removeA` on a cons cell. -/
theorem removeA_cons {α : Type} (p : String × α) (rest : List (String × α))
    (k : String) :
    removeA (p :: rest) k = if p.1 ≠ k then p :: removeA rest k else removeA rest k := by
  by_cases hp : p.1 = k <;> simp [removeA, hp]

/-- Unfolding equation for `lookupA` on a cons cell. -/
theorem lookupA_cons {α : Type} (p : String × α) (rest : List (String × α))
    (k : String) :
    lookupA (p :: rest) k = if p.1 = k then some p.2 else lookupA rest k := rfl

/-- Updating an existing key changes its value and nothing else. -/
theorem lookupA_updateA_self {α : Type} (l : List (String × α)) (k : String) (v : α) :
    lookupA (updateA l k v) k = (lookupA l k).map (fun _ => v) := by
  induction l with
  | nil => rfl
  | cons p rest ih =>
    by_cases hp : p.1 = k
    · simp [updateA_cons, lookupA_cons, hp]
    · simp [updateA_cons, lookupA_cons, hp, ih]

/-- Updating one key leaves every other key's binding unchanged. -/
theorem lookupA_updateA_ne {α : Type} (l : List (String × α)) (k : String) (v : α)
    (j : String) (h : j ≠ k) :
    lookupA (updateA l k v) j = lookupA l j := by
  induction l with
  | nil => rfl
  | cons p rest ih =>
    by_cases hp : p.1 = k
    · have hkj : ¬ k = j := fun hh => h hh.symm
      have hpj : ¬ p.1 = j := by rw [hp]; exact hkj
      simp [updateA_cons, lookupA_cons, hp, hkj, hpj, ih]
    · simp [updateA_cons, lookupA_cons, hp, ih]

/-- An insert is observable under its own key. -/
theorem lookupA_insertA_self {α : Type} (l : List (String × α)) (k : String) (v : α) :
    lookupA (insertA l k v) k = some v := by
  unfold insertA
  cases hlk : lookupA l k with
  | some w => simp [lookupA_updateA_self, hlk]
  | none =>
    induction l with
    | nil => simp [lookupA_cons, lookupA]
    | cons p rest ih =>
      by_cases hp : p.1 = k
      · simp [lookupA_cons, hp] at hlk
      · simp [lookupA_cons, hp] at hlk ⊢
        exact ih hlk

/-- An insert leaves every other key's binding unchanged. -/
theorem lookupA_insertA_ne {α : Type} (l : List (String × α)) (k : String) (v : α)
    (j : String) (h : j ≠ k) :
    lookupA (insertA l k v) j = lookupA l j := by
  unfold insertA
  cases hlk : lookupA l k with
  | some w => exact lookupA_updateA_ne l k v j h
  | none =>
    induction l with
    | nil =>
      simp [lookupA_cons, lookupA]
      exact fun hh => h hh.symm
    | cons p rest ih =>
      by_cases hp : p.1 = k
      · simp [lookupA_cons, hp] at hlk
      · simp [lookupA_cons, hp] at hlk
        by_cases hj : p.1 = j
        · simp [lookupA_cons, hj]
        · simp [lookupA_cons, hj]
          exact ih hlk

/-- A removed key is gone. -/
theorem lookupA_removeA_self {α : Type} (l : List (String × α)) (k : String) :
    lookupA (removeA l k) k = none := by
  induction l with
  | nil => rfl
  | cons p rest ih =>
    by_cases hp : p.1 = k
    · simpa [removeA_cons, hp] using ih
    · simpa [removeA_cons, lookupA_cons, hp] using ih

/-- Removing one key leaves every other key's binding unchanged. -/
theorem lookupA_removeA_ne {α : Type} (l : List (String × α)) (k : String)
    (j : String) (h : j ≠ k) :
    lookupA (removeA l k) j = lookupA l j := by
  induction l with
  | nil => rfl
  | cons p rest ih =>
    by_cases hp : p.1 = k
    · have hkj : ¬ k = j := fun hh => h hh.symm
      simpa [removeA_cons, lookupA_cons, hp, hkj] using ih
    · simp [removeA_cons, lookupA_cons, hp, ih]

/-- Per-id description of `syncToSceneData`'s map: an object with a live
body is rewritten by `syncOne`, one without is untouched. -/
theorem lookupA_syncMap (mode : ViewMode) (ents : List (String × MBody))
    (sd : List (String × SceneObj)) (id : String) :
    lookupA (sd.map (fun p =>
      match lookupA ents p.1 with
      | some b => (p.1, syncOne mode p.2 b)
      | none => p)) id =
    (lookupA sd id).map (fun d =>
      match lookupA ents id with
      | some b => syncOne mode d b
      | none => d) := by
  induction sd with
  | nil => rfl
  | cons p rest ih =>
    by_cases hp : p.1 = id
    · subst hp
      cases hb : lookupA ents p.1 <;>
        simp [lookupA_cons, hb]
    · cases hb : lookupA ents p.1 <;>
        simp [lookupA_cons, hb, hp, ih]

/-- C3: `setViewMode(m)` is a no-op when `m` is the current mode; otherwise
it first writes every live body's resolved position and angle into the
owning scene object's fields for the outgoing view (x, y, angle in side
mode; x, z, angleTop in top mode) while leaving the other view's pair
(z/angleTop, respectively y/angle) unchanged, then switches the mode, then
rebuilds all bodies for the new mode. -/
theorem setViewMode_spec (w : World) (m : ViewMode) :
    (m = w.mode → setViewMode w m = w) ∧
    (m ≠ w.mode →
      setViewMode w m = rebuildWorld { syncToSceneData w with mode := m } ∧
      (setViewMode w m).mode = m ∧
      (∀ id, lookupA (syncToSceneData w).sceneData id =
        (lookupA w.sceneData id).map (fun d =>
          match lookupA w.entities id with
          | some b => syncOne w.mode d b
          | none => d)) ∧
      (∀ d b, (syncOne ViewMode.side d b).x = (resolvedPos ViewMode.side d b).x ∧
        (syncOne ViewMode.side d b).y = (resolvedPos ViewMode.side d b).y ∧
        (syncOne ViewMode.side d b).angle = some b.angle ∧
        (syncOne ViewMode.side d b).z = d.z ∧
        (syncOne ViewMode.side d b).angleTop = d.angleTop) ∧
      (∀ d b, (syncOne ViewMode.top d b).x = (resolvedPos ViewMode.top d b).x ∧
        (syncOne ViewMode.top d b).z = (resolvedPos ViewMode.top d b).y ∧
        (syncOne ViewMode.top d b).angleTop = some b.angle ∧
        (syncOne ViewMode.top d b).y = d.y ∧
        (syncOne ViewMode.top d b).angle = d.angle)) := by
  constructor
  · intro hm
    simp [setViewMode, hm.symm]
  · intro hm
    have hne : ¬ w.mode = m := fun hh => hm hh.symm
    refine ⟨by simp [setViewMode, hne], by simp [setViewMode, hne, rebuildWorld], ?_, ?_, ?_⟩
    · intro id
      exact lookupA_syncMap w.mode w.entities w.sceneData id
    · intro d b
      refine ⟨rfl, rfl, rfl, rfl, rfl⟩
    · intro d b
      refine ⟨rfl, rfl, rfl, rfl, rfl⟩

/-- Witness for `setViewMode_spec`: switching the fixture world from side
to top view syncs the drifted body position (30, 40) and its 90° angle
into x, y and angle, and the switched world's mode is top. -/
theorem setViewMode_spec_witness :
    ViewMode.top ≠ wC3.mode ∧
    (setViewMode wC3 ViewMode.top).mode = ViewMode.top ∧
    lookupA (syncToSceneData wC3).sceneData "o" =
      some { objC3 with x := 30, y := 40, angle := some ⟨0, 1⟩ } := by
  have hne : ViewMode.top ≠ wC3.mode := by
    simp [wC3]
  refine ⟨hne, ((setViewMode_spec wC3 ViewMode.top).2 hne).2.1, ?_⟩
  have h := ((setViewMode_spec wC3 ViewMode.top).2 hne).2.2.1 "o"
  rw [h]
  have hbox : ¬(SType.Box = SType.Triangle ∨ SType.Box = SType.Incline ∨
      SType.Box = SType.Cone ∨ SType.Box = SType.Trapezoid) := by decide
  norm_num [wC3, objC3, bodyC3, baseObj, baseBody, lookupA_cons, syncOne,
    resolvedPos, offsetFamily, hbox]

/-- C10 (amended): `updateObject(id, {})` on an object with a live body
changes no scene-data field, leaves the body's angle and velocity
unchanged, but unconditionally resets the body's position to the position
derived from the stored scene data (plus the centroid offset for the
asymmetric side-view shapes) — which equals the current position only when
the body has not moved since that data was last synced. -/
theorem updateObject_empty_spec (w : World) (id : String) (d : SceneObj) (b : MBody)
    (hd : lookupA w.sceneData id = some d)
    (hb : lookupA w.entities id = some b) :
    (∀ j, lookupA (updateObject w id emptyUpdates).sceneData j = lookupA w.sceneData j) ∧
    lookupA (updateObject w id emptyUpdates).entities id =
      some { b with position := updateTarget w.mode d } ∧
    (∀ j, j ≠ id → lookupA (updateObject w id emptyUpdates).entities j =
      lookupA w.entities j) ∧
    (updateObject w id emptyUpdates).mode = w.mode ∧
    (updateObject w id emptyUpdates).constraints = w.constraints ∧
    MBody.velocity { b with position := updateTarget w.mode d } = b.velocity ∧
    MBody.angle { b with position := updateTarget w.mode d } = b.angle := by
  have hmerge : mergeData d emptyUpdates = d := rfl
  have hres : updateObject w id emptyUpdates =
      { w with
        sceneData := updateA w.sceneData id d,
        entities := updateA (updateA w.entities id
            { b with position := updateTarget w.mode d }) id
          { b with position := updateTarget w.mode d } } := by
    simp only [updateObject, hd, hmerge, hb, emptyUpdates]
    cases hmode : w.mode <;> simp [truthyQ, hmode] <;> exact ⟨rfl, rfl⟩
  rw [hres]
  refine ⟨?_, ?_, ?_, rfl, rfl, rfl, rfl⟩
  · intro j
    by_cases hj : j = id
    · subst hj
      rw [lookupA_updateA_self, hd]
      rfl
    · exact lookupA_updateA_ne _ _ _ _ hj
  · show lookupA (updateA (updateA w.entities id _) id _) id = _
    rw [lookupA_updateA_self, lookupA_updateA_self, hb]
    rfl
  · intro j hj
    rw [lookupA_updateA_ne _ _ _ _ hj, lookupA_updateA_ne _ _ _ _ hj]

/-- C10 counterexample: the fixture body has drifted to (150, 200) while
the stored scene data still says (100, 100); the empty update
`updateObject("o", {})` moves the body back to (100, 100), so the claim
that an empty update leaves the body's position unchanged fails. -/
theorem updateObject_empty_moves_body :
    lookupA (updateObject wC10 "o" emptyUpdates).entities "o" =
      some { bodyC10 with position := ⟨100, 100⟩ } ∧
    bodyC10.position = ⟨150, 200⟩ ∧
    (⟨100, 100⟩ : Vec2) ≠ (⟨150, 200⟩ : Vec2) := by
  refine ⟨?_, rfl, by simp [Vec2.mk.injEq]⟩
  have h := (updateObject_empty_spec wC10 "o" objC10 bodyC10
    (by simp [wC10, lookupA_cons]) (by simp [wC10, lookupA_cons])).2.1
  rw [h]
  have hbox : ¬(SType.Box = SType.Triangle ∨ SType.Box = SType.Incline ∨
      SType.Box = SType.Cone ∨ SType.Box = SType.Trapezoid) := by decide
  norm_num [wC10, objC10, bodyC10, baseObj, baseBody, updateTarget, offsetFamily, hbox]

/-- Witness for `updateObject_empty_spec`, instantiated at the fixture
world: the scene data and constraints survive, the body is repositioned at
the derived target, and its velocity is untouched. -/
theorem updateObject_empty_spec_witness :
    lookupA (updateObject wC10 "o" emptyUpdates).entities "o" =
      some { bodyC10 with position := updateTarget wC10.mode objC10 } ∧
    (updateObject wC10 "o" emptyUpdates).mode = wC10.mode ∧
    (updateObject wC10 "o" emptyUpdates).constraints = wC10.constraints ∧
    MBody.velocity { bodyC10 with position := updateTarget wC10.mode objC10 } =
      bodyC10.velocity := by
  have h := updateObject_empty_spec wC10 "o" objC10 bodyC10
    (by simp [wC10, lookupA_cons]) (by simp [wC10, lookupA_cons])
  exact ⟨h.2.1, h.2.2.2.1, h.2.2.2.2.1, h.2.2.2.2.2.1⟩

/-- C8 (amended): a collision pair whose conveyor side is identified gives
a static contacting body no force; a dynamic one receives a force along
the belt tangent (cos angle, sin angle) with magnitude (1/2) × f × mass ×
(tangential velocity − belt speed) opposing the velocity error, where f is
the friction product when positive and the 0.1 fallback otherwise, and the
belt speed is the scene record's `conveyorSpeed` field with the `|| 5`
default; the force is applied at the average of the reported contact
points, or at the body's centre when none are reported. -/
theorem conveyor_spec (da : SceneObj) (beltBody targetBody : MBody)
    (contacts : List Vec2)
    (hconv : da.type = SType.Conveyor) :
    (targetBody.isStatic = true →
      conveyorPair (some da) none beltBody targetBody contacts = (beltBody, targetBody)) ∧
    (targetBody.isStatic = false →
      conveyorPair (some da) none beltBody targetBody contacts =
        (beltBody, conveyorStep da beltBody targetBody contacts)) ∧
    (targetBody.isStatic = true →
      conveyorPair none (some da) targetBody beltBody contacts = (targetBody, beltBody)) ∧
    (targetBody.isStatic = false →
      conveyorPair none (some da) targetBody beltBody contacts =
        (conveyorStep da beltBody targetBody contacts, beltBody)) ∧
    (conveyorStep da beltBody targetBody contacts =
      (let dir : Vec2 := ⟨beltBody.angle.c, beltBody.angle.s⟩
       let friction := beltBody.friction * targetBody.friction
       let force := vmul dir
         (-(vdot targetBody.velocity dir - orQ da.conveyorSpeed 5) * (1 / 2) *
           targetBody.mass * (if friction > 0 then friction else 1 / 10))
       if contacts ≠ [] then applyForce targetBody (contactAvg contacts) force
       else applyForce targetBody targetBody.position force)) := by
  refine ⟨fun hs => ?_, fun hs => ?_, fun hs => ?_, fun hs => ?_, ?_⟩
  · simp [conveyorPair, isConveyorData, hconv, hs]
  · simp [conveyorPair, isConveyorData, hconv, hs]
  · simp [conveyorPair, isConveyorData, hconv, hs]
  · simp [conveyorPair, isConveyorData, hconv, hs]
  · rfl

/-- C8 counterexample: on a frictionless belt the claim's force formula
gain × (belt friction × body friction) × mass × (velocity error) evaluates
to 0, yet the code applies the nonzero force (3/20, 0) — the `friction > 0
? friction : 0.1` fallback replaces the zero friction product by 0.1. -/
theorem conveyor_zero_friction_force :
    (conveyorStep beltData beltZero targZero []).force = ⟨3 / 20, 0⟩ ∧
    beltZero.friction * targZero.friction = 0 ∧
    (1 / 2 : ℚ) * (beltZero.friction * targZero.friction) * targZero.mass *
      (vdot targZero.velocity ⟨1, 0⟩ - 5) = 0 ∧
    (⟨3 / 20, 0⟩ : Vec2) ≠ (⟨0, 0⟩ : Vec2) := by
  refine ⟨?_, ?_, ?_, by simp [Vec2.mk.injEq]⟩
  · norm_num [conveyorStep, beltData, beltZero, targZero, baseObj, baseBody,
      orQ, vdot, vmul, vadd, applyForce, contactAvg, Rot.id]
  · norm_num [beltZero, targZero, baseBody]
  · norm_num [beltZero, targZero, baseBody, vdot]

/-- Witness for `conveyor_spec`: a belt of friction 1/2 under a dynamic
body moving at 2 along the belt (default speed 5, friction product 1/2)
applies the force (3/4, 0) at the average (1, 0) of the two reported
contact points. -/
theorem conveyor_spec_witness :
    targZero.isStatic = false ∧
    conveyorPair (some beltData) none beltF8 targZero [⟨0, 0⟩, ⟨2, 0⟩] =
      (beltF8, applyForce targZero ⟨1, 0⟩ ⟨3 / 4, 0⟩) := by
  refine ⟨rfl, ?_⟩
  have h := (conveyor_spec beltData beltF8 targZero [⟨0, 0⟩, ⟨2, 0⟩] rfl).2.1 rfl
  rw [h]
  have h2 := (conveyor_spec beltData beltF8 targZero [⟨0, 0⟩, ⟨2, 0⟩] rfl).2.2.2.2
  rw [h2]
  norm_num [beltData, beltF8, targZero, baseObj, baseBody, orQ, vdot, vmul,
    contactAvg, Rot.id]
  intro hfalse
  exact absurd hfalse (by simp)

end Phys

namespace Phys

theorem lookupA_updateA_isSome {α : Type} (l : List (String × α)) (k : String)
    (v : α) (i : String) :
    (lookupA (updateA l k v) i).isSome = (lookupA l i).isSome := by
  by_cases hik : i = k
  · subst hik
    rw [lookupA_updateA_self]
    cases lookupA l i <;> rfl
  · rw [lookupA_updateA_ne _ _ _ _ hik]

theorem setEntity_constraints (w : World) (oid : Option String) (ob : Option MBody) :
    (setEntity w oid ob).constraints = w.constraints := by
  cases oid <;> cases ob <;> rfl

theorem setEntity_lookup_isSome (w : World) (oid : Option String) (ob : Option MBody)
    (i : String) :
    (lookupA (setEntity w oid ob).entities i).isSome = (lookupA w.entities i).isSome := by
  cases oid <;> cases ob <;> simp [setEntity, lookupA_updateA_isSome]

theorem resolveRef_isNone_congr (w₀ w : World) (oid : Option String)
    (hkeys : ∀ i, (lookupA w.entities i).isSome = (lookupA w₀.entities i).isSome) :
    (resolveRef w oid).isNone = (resolveRef w₀ oid).isNone := by
  cases oid with
  | none => rfl
  | some i =>
    have := hkeys i
    simp only [resolveRef]
    cases h : lookupA w.entities i <;> cases h2 : lookupA w₀.entities i <;>
      simp_all

theorem resolveRef_isSome_congr (w₀ w : World) (oid : Option String)
    (hkeys : ∀ i, (lookupA w.entities i).isSome = (lookupA w₀.entities i).isSome) :
    (resolveRef w oid).isSome = (resolveRef w₀ oid).isSome := by
  cases oid with
  | none => rfl
  | some i => exact hkeys i

theorem phaseAStep_facts (sq : ℚ → ℚ) (w₀ w : World) (c : Constraint)
    (hkeys : ∀ i, (lookupA w.entities i).isSome = (lookupA w₀.entities i).isSome) :
    ((phaseAStep sq w c).1.constraints = w.constraints ∨
     (phaseAStep sq w c).1.constraints = w.constraints.filter (fun x => x.id ≠ c.id)) ∧
    (∀ e ∈ (phaseAStep sq w c).2, Ev.evId e = c.id) ∧
    (∀ i, (lookupA (phaseAStep sq w c).1.entities i).isSome =
      (lookupA w₀.entities i).isSome) ∧
    (phaseAStep sq w c).2 = (phaseAEvent w₀ c).toList := by
  have hA := resolveRef_isNone_congr w₀ w c.bodyAId hkeys
  have hB := resolveRef_isNone_congr w₀ w c.bodyBId hkeys
  have hAs := resolveRef_isSome_congr w₀ w c.bodyAId hkeys
  by_cases h1 : c.kind = CKind.friction
  · have hstep : phaseAStep sq w c = (w, []) := by
      simp [phaseAStep, h1]
    rw [hstep]
    simp [phaseAEvent, h1, hkeys]
  by_cases h2 : (c.bodyAId.isSome && (resolveRef w c.bodyAId).isNone ||
      c.bodyBId.isSome && (resolveRef w c.bodyBId).isNone) = true
  · have h2' : (c.bodyAId.isSome && (resolveRef w₀ c.bodyAId).isNone ||
        c.bodyBId.isSome && (resolveRef w₀ c.bodyBId).isNone) = true := by
      rw [← hA, ← hB]
      exact h2
    have hstep : phaseAStep sq w c = (w, []) := by
      simp only [phaseAStep]
      rw [if_neg h1, if_pos h2]
    rw [hstep]
    simp [phaseAEvent, h1, h2', hkeys]
  have h2' : ¬ (c.bodyAId.isSome && (resolveRef w₀ c.bodyAId).isNone ||
      c.bodyBId.isSome && (resolveRef w₀ c.bodyBId).isNone) = true := by
    rw [← hA, ← hB]
    exact h2
  by_cases h3 : c.kind = CKind.spring
  · have hstep : phaseAStep sq w c =
        (setEntity (setEntity w c.bodyAId
            (solveSpring sq c (resolveRef w c.bodyAId) (resolveRef w c.bodyBId)).1)
          c.bodyBId
          (solveSpring sq c (resolveRef w c.bodyAId) (resolveRef w c.bodyBId)).2,
         [Ev.spring c.id]) := by
      simp only [phaseAStep]
      rw [if_neg h1, if_neg h2, if_pos h3]
    rw [hstep]
    refine ⟨Or.inl (by rw [setEntity_constraints, setEntity_constraints]),
      ?_, ?_, ?_⟩
    · intro e he
      simp at he
      simp [he, Ev.evId]
    · intro i
      rw [setEntity_lookup_isSome, setEntity_lookup_isSome]
      exact hkeys i
    · simp [phaseAEvent, h1, h2', h3]
  by_cases h4 : (decide (c.kind = CKind.ideal_rope) && c.isElastic) = true
  · by_cases h5 : (solveIdealRope sq c (resolveRef w c.bodyAId)
        (resolveRef w c.bodyBId)).removed = true
    · have hstep : phaseAStep sq w c =
          (removeConstraint (setEntity (setEntity w c.bodyAId
              (solveIdealRope sq c (resolveRef w c.bodyAId) (resolveRef w c.bodyBId)).bodyA)
            c.bodyBId
            (solveIdealRope sq c (resolveRef w c.bodyAId) (resolveRef w c.bodyBId)).bodyB)
            c.id,
           [Ev.elastic c.id]) := by
        simp only [phaseAStep]
        rw [if_neg h1, if_neg h2, if_neg h3, if_pos h4, if_pos h5]
      rw [hstep]
      refine ⟨Or.inr ?_, ?_, ?_, ?_⟩
      · show (setEntity (setEntity w _ _) _ _).constraints.filter _ = _
        rw [setEntity_constraints, setEntity_constraints]
      · intro e he
        simp at he
        simp [he, Ev.evId]
      · intro i
        show (lookupA (setEntity (setEntity w _ _) _ _).entities i).isSome = _
        rw [setEntity_lookup_isSome, setEntity_lookup_isSome]
        exact hkeys i
      · simp [phaseAEvent, h1, h2', h3, h4]
    · have hstep : phaseAStep sq w c =
          (setEntity (setEntity w c.bodyAId
              (solveIdealRope sq c (resolveRef w c.bodyAId) (resolveRef w c.bodyBId)).bodyA)
            c.bodyBId
            (solveIdealRope sq c (resolveRef w c.bodyAId) (resolveRef w c.bodyBId)).bodyB,
           [Ev.elastic c.id]) := by
        simp only [phaseAStep]
        rw [if_neg h1, if_neg h2, if_neg h3, if_pos h4, if_neg h5]
      rw [hstep]
      refine ⟨Or.inl (by rw [setEntity_constraints, setEntity_constraints]),
        ?_, ?_, ?_⟩
      · intro e he
        simp at he
        simp [he, Ev.evId]
      · intro i
        rw [setEntity_lookup_isSome, setEntity_lookup_isSome]
        exact hkeys i
      · simp [phaseAEvent, h1, h2', h3, h4]
  by_cases h6 : c.kind = CKind.force
  · cases hAr : resolveRef w c.bodyAId with
    | some b =>
      have hAs' : (resolveRef w₀ c.bodyAId).isSome = true := by
        rw [← hAs, hAr]
        rfl
      have hstep : phaseAStep sq w c =
          (setEntity w c.bodyAId (some (applyForce b b.position c.vector)),
           [Ev.applyF c.id]) := by
        simp only [phaseAStep]
        rw [if_neg h1, if_neg h2, if_neg h3, if_neg h4, if_pos h6, hAr]
      rw [hstep]
      refine ⟨Or.inl (by rw [setEntity_constraints]), ?_, ?_, ?_⟩
      · intro e he
        simp at he
        simp [he, Ev.evId]
      · intro i
        rw [setEntity_lookup_isSome]
        exact hkeys i
      · simp [phaseAEvent, h1, h2', h3, h4, h6, hAs']
    | none =>
      have hAs' : ¬ (resolveRef w₀ c.bodyAId).isSome = true := by
        rw [← hAs, hAr]
        simp
      have hstep : phaseAStep sq w c = (w, []) := by
        simp only [phaseAStep]
        rw [if_neg h1, if_neg h2, if_neg h3, if_neg h4, if_pos h6, hAr]
      rw [hstep]
      simp [phaseAEvent, h1, h2', h3, h4, h6, hAs', hkeys]
  · have hstep : phaseAStep sq w c = (w, []) := by
      simp only [phaseAStep]
      rw [if_neg h1, if_neg h2, if_neg h3, if_neg h4, if_neg h6]
    rw [hstep]
    simp [phaseAEvent, h1, h2', h3, h4, h6, hkeys]

end Phys

namespace Phys

theorem pbdStep_facts (sq : ℚ → ℚ) (w : World) (c : Constraint) :
    ((pbdStep sq w c).1.constraints = w.constraints ∨
     (pbdStep sq w c).1.constraints = w.constraints.filter (fun x => x.id ≠ c.id)) ∧
    (∀ e ∈ (pbdStep sq w c).2, Ev.evId e = c.id ∧ Ev.isPBD e = true) ∧
    (∀ i, (lookupA (pbdStep sq w c).1.entities i).isSome =
      (lookupA w.entities i).isSome) := by
  by_cases h2 : (c.bodyAId.isSome && (resolveRef w c.bodyAId).isNone ||
      c.bodyBId.isSome && (resolveRef w c.bodyBId).isNone) = true
  · have hstep : pbdStep sq w c = (w, []) := by
      simp only [pbdStep]
      rw [if_pos h2]
    rw [hstep]
    simp
  by_cases h3 : (decide (c.kind = CKind.ideal_rope) && !c.isElastic) = true
  · by_cases h5 : (solveIdealRope sq c (resolveRef w c.bodyAId)
        (resolveRef w c.bodyBId)).removed = true
    · have hstep : pbdStep sq w c =
          (removeConstraint (setEntity (setEntity w c.bodyAId
              (solveIdealRope sq c (resolveRef w c.bodyAId) (resolveRef w c.bodyBId)).bodyA)
            c.bodyBId
            (solveIdealRope sq c (resolveRef w c.bodyAId) (resolveRef w c.bodyBId)).bodyB)
            c.id,
           [Ev.ropePBD c.id]) := by
        simp only [pbdStep]
        rw [if_neg h2, if_pos h3, if_pos h5]
      rw [hstep]
      refine ⟨Or.inr ?_, ?_, ?_⟩
      · show (setEntity (setEntity w _ _) _ _).constraints.filter _ = _
        rw [setEntity_constraints, setEntity_constraints]
      · intro e he
        simp at he
        simp [he, Ev.evId, Ev.isPBD]
      · intro i
        show (lookupA (setEntity (setEntity w _ _) _ _).entities i).isSome = _
        rw [setEntity_lookup_isSome, setEntity_lookup_isSome]
    · have hstep : pbdStep sq w c =
          (setEntity (setEntity w c.bodyAId
              (solveIdealRope sq c (resolveRef w c.bodyAId) (resolveRef w c.bodyBId)).bodyA)
            c.bodyBId
            (solveIdealRope sq c (resolveRef w c.bodyAId) (resolveRef w c.bodyBId)).bodyB,
           [Ev.ropePBD c.id]) := by
        simp only [pbdStep]
        rw [if_neg h2, if_pos h3, if_neg h5]
      rw [hstep]
      refine ⟨Or.inl (by rw [setEntity_constraints, setEntity_constraints]), ?_, ?_⟩
      · intro e he
        simp at he
        simp [he, Ev.evId, Ev.isPBD]
      · intro i
        rw [setEntity_lookup_isSome, setEntity_lookup_isSome]
  by_cases h6 : c.kind = CKind.pulley
  · have hstep : pbdStep sq w c =
        (setEntity (setEntity w c.bodyAId
            (solveIdealPulley sq c (resolveRef w c.bodyAId) (resolveRef w c.bodyBId)).1)
          c.bodyBId
          (solveIdealPulley sq c (resolveRef w c.bodyAId) (resolveRef w c.bodyBId)).2,
         [Ev.pulleyPBD c.id]) := by
      simp only [pbdStep]
      rw [if_neg h2, if_neg h3, if_pos h6]
    rw [hstep]
    refine ⟨Or.inl (by rw [setEntity_constraints, setEntity_constraints]), ?_, ?_⟩
    · intro e he
      simp at he
      simp [he, Ev.evId, Ev.isPBD]
    · intro i
      rw [setEntity_lookup_isSome, setEntity_lookup_isSome]
  · have hstep : pbdStep sq w c = (w, []) := by
      simp only [pbdStep]
      rw [if_neg h2, if_neg h3, if_neg h6]
    rw [hstep]
    simp

end Phys

namespace Phys

theorem toList_append_filterMap {α β : Type} (f : α → Option β) (a : α) (l : List α) :
    (f a).toList ++ l.filterMap f = (a :: l).filterMap f := by
  cases h : f a <;> simp [List.filterMap_cons, h]

theorem phaseA_fold_facts (sq : ℚ → ℚ) (w₀ : World) :
    ∀ (cs : List Constraint) (w : World) (acc : List Ev),
    (∀ i, (lookupA w.entities i).isSome = (lookupA w₀.entities i).isSome) →
    (∀ i, (lookupA (cs.foldl (fun acc c =>
        let r := phaseAStep sq acc.1 c
        (r.1, acc.2 ++ r.2)) (w, acc)).1.entities i).isSome =
      (lookupA w₀.entities i).isSome) ∧
    (cs.foldl (fun acc c =>
        let r := phaseAStep sq acc.1 c
        (r.1, acc.2 ++ r.2)) (w, acc)).2 = acc ++ cs.filterMap (phaseAEvent w₀) ∧
    (∀ c' ∈ (cs.foldl (fun acc c =>
        let r := phaseAStep sq acc.1 c
        (r.1, acc.2 ++ r.2)) (w, acc)).1.constraints, c' ∈ w.constraints) ∧
    (∀ e ∈ (cs.foldl (fun acc c =>
        let r := phaseAStep sq acc.1 c
        (r.1, acc.2 ++ r.2)) (w, acc)).2, e ∈ acc ∨ ∃ c ∈ cs, Ev.evId e = c.id) := by
  intro cs
  induction cs with
  | nil =>
    intro w acc hkeys
    refine ⟨hkeys, by simp, fun c' hc' => hc', fun e he => Or.inl he⟩
  | cons c rest ih =>
    intro w acc hkeys
    have hf := phaseAStep_facts sq w₀ w c hkeys
    have hrec := ih (phaseAStep sq w c).1 (acc ++ (phaseAStep sq w c).2) hf.2.2.1
    simp only [List.foldl_cons]
    refine ⟨hrec.1, ?_, ?_, ?_⟩
    · rw [hrec.2.1, hf.2.2.2, List.append_assoc, toList_append_filterMap]
    · intro c' hc'
      have hmem := hrec.2.2.1 c' hc'
      rcases hf.1 with heq | heq
      · rw [heq] at hmem
        exact hmem
      · rw [heq] at hmem
        exact (List.mem_filter.mp hmem).1
    · intro e he
      have hmem := hrec.2.2.2 e he
      rcases hmem with hacc | ⟨c2, hc2, hid⟩
      · rcases List.mem_append.mp hacc with h | h
        · exact Or.inl h
        · exact Or.inr ⟨c, List.mem_cons_self c rest, hf.2.1 e h⟩
      · exact Or.inr ⟨c2, List.mem_cons_of_mem c hc2, hid⟩

theorem pbd_fold_facts (sq : ℚ → ℚ) :
    ∀ (cs : List Constraint) (w : World) (acc : List Ev),
    (∀ i, (lookupA (cs.foldl (fun acc c =>
        let r := pbdStep sq acc.1 c
        (r.1, acc.2 ++ r.2)) (w, acc)).1.entities i).isSome =
      (lookupA w.entities i).isSome) ∧
    (∀ c' ∈ (cs.foldl (fun acc c =>
        let r := pbdStep sq acc.1 c
        (r.1, acc.2 ++ r.2)) (w, acc)).1.constraints, c' ∈ w.constraints) ∧
    (∀ e ∈ (cs.foldl (fun acc c =>
        let r := pbdStep sq acc.1 c
        (r.1, acc.2 ++ r.2)) (w, acc)).2,
      e ∈ acc ∨ (Ev.isPBD e = true ∧ ∃ c ∈ cs, Ev.evId e = c.id)) := by
  intro cs
  induction cs with
  | nil =>
    intro w acc
    exact ⟨fun i => rfl, fun c' hc' => hc', fun e he => Or.inl he⟩
  | cons c rest ih =>
    intro w acc
    have hf := pbdStep_facts sq w c
    have hrec := ih (pbdStep sq w c).1 (acc ++ (pbdStep sq w c).2)
    simp only [List.foldl_cons]
    refine ⟨?_, ?_, ?_⟩
    · intro i
      rw [hrec.1 i, hf.2.2 i]
    · intro c' hc'
      have hmem := hrec.2.1 c' hc'
      rcases hf.1 with heq | heq
      · rw [heq] at hmem
        exact hmem
      · rw [heq] at hmem
        exact (List.mem_filter.mp hmem).1
    · intro e he
      have hmem := hrec.2.2 e he
      rcases hmem with hacc | ⟨hpbd, c2, hc2, hid⟩
      · rcases List.mem_append.mp hacc with h | h
        · exact Or.inl h
        · exact Or.inr ⟨(hf.2.1 e h).2, c, List.mem_cons_self c rest, (hf.2.1 e h).1⟩
      · exact Or.inr ⟨hpbd, c2, List.mem_cons_of_mem c hc2, hid⟩

theorem pbdLoop_facts (sq : ℚ → ℚ) :
    ∀ (n : ℕ) (w : World),
    ((pbdLoop sq n w).1 = (fun v => (pbdSweep sq v).1)^[n] w) ∧
    (∀ c' ∈ (pbdLoop sq n w).1.constraints, c' ∈ w.constraints) ∧
    (∀ e ∈ (pbdLoop sq n w).2,
      Ev.isPBD e = true ∧ ∃ c ∈ w.constraints, Ev.evId e = c.id) := by
  intro n
  induction n with
  | zero =>
    intro w
    exact ⟨rfl, fun c' hc' => hc', fun e he => absurd he (by simp [pbdLoop])⟩
  | succ n ih =>
    intro w
    have hsweep := pbd_fold_facts sq w.constraints w []
    have hrec := ih (pbdSweep sq w).1
    refine ⟨?_, ?_, ?_⟩
    · show (pbdLoop sq (n + 1) w).1 = _
      rw [Function.iterate_succ_apply]
      exact hrec.1
    · intro c' hc'
      have h1 := hrec.2.1 c' hc'
      exact hsweep.2.1 c' h1
    · intro e he
      simp only [pbdLoop] at he
      rcases List.mem_append.mp he with h | h
      · rcases hsweep.2.2 e h with h2 | h2
        · exact absurd h2 (List.not_mem_nil e)
        · exact ⟨h2.1, h2.2⟩
      · have h2 := hrec.2.2 e h
        refine ⟨h2.1, ?_⟩
        rcases h2.2 with ⟨c2, hc2, hid⟩
        exact ⟨c2, hsweep.2.1 c2 hc2, hid⟩

end Phys

namespace Phys

theorem phaseAEvent_isPBD (w : World) (c : Constraint) (e : Ev)
    (h : phaseAEvent w c = some e) : Ev.isPBD e = false := by
  simp only [phaseAEvent] at h
  split_ifs at h
  all_goals
    injection h with h2
    subst h2
    rfl

theorem beforeUpdate_eq (sq : ℚ → ℚ) (w : World) :
    beforeUpdate sq w = ((pbdLoop sq 10 (phaseA sq w).1).1,
      (phaseA sq w).2 ++ (pbdLoop sq 10 (phaseA sq w).1).2) := by
  simp only [beforeUpdate]

/-- C2: on every simulation tick (`beforeUpdate` handler), the force-based
constraint kinds (spring, elastic rope, constant force) are each applied
exactly once — the phase-A event trace is a `filterMap` over the tick's
initial constraint list, one optional event per constraint, all of them
force-based — and only afterwards do the position-based kinds (non-elastic
rope, pulley) run a fixed loop of 10 solver sweeps: the final world is the
10-fold iterate of the PBD sweep on the phase-A output, and every event it
emits is position-based. -/
theorem solver_ordering (sq : ℚ → ℚ) (w : World) :
    (beforeUpdate sq w).1 = (fun v => (pbdSweep sq v).1)^[10] (phaseA sq w).1 ∧
    (beforeUpdate sq w).2 = (phaseA sq w).2 ++ (pbdLoop sq 10 (phaseA sq w).1).2 ∧
    (phaseA sq w).2 = w.constraints.filterMap (phaseAEvent w) ∧
    (∀ e ∈ (phaseA sq w).2, Ev.isPBD e = false) ∧
    (∀ e ∈ (pbdLoop sq 10 (phaseA sq w).1).2, Ev.isPBD e = true) := by
  have hfold := phaseA_fold_facts sq w w.constraints w [] (fun i => rfl)
  have htrace : (phaseA sq w).2 = w.constraints.filterMap (phaseAEvent w) := by
    simp only [phaseA]
    rw [hfold.2.1]
    simp
  refine ⟨?_, ?_, htrace, ?_, ?_⟩
  · simp only [beforeUpdate_eq]
    exact (pbdLoop_facts sq 10 (phaseA sq w).1).1
  · simp only [beforeUpdate_eq]
  · intro e he
    rw [htrace] at he
    rcases List.mem_filterMap.mp he with ⟨c, _, hc⟩
    exact phaseAEvent_isPBD w c e hc
  · intro e he
    exact ((pbdLoop_facts sq 10 (phaseA sq w).1).2.2 e he).1

/-- C6 (amended): a rope with `maxForce` set breaks — `_solveIdealRope`
calls `_removeConstraint` — exactly when some referenced body resolves, the
current distance exceeds the rest length, and the tension measure crosses
the kind's threshold: the spring force magnitude `stiffness × (d − length)`
must exceed `maxForce` for an elastic rope, while for a non-elastic rope
the positional correction `d − length` must exceed `maxForce × 0.1`, a
tenth of the configured value.  Once a rope's id is absent from the
constraint set, a whole tick (`beforeUpdate`) keeps it absent and emits no
solver event for it, so a broken rope never again applies any force or
position correction. -/
theorem ropeBreak_spec (sq : ℚ → ℚ) :
    (∀ (rope : Constraint) (bodyA bodyB : Option MBody) (d : ℚ),
      d = sq (magSq (vsub (worldAnchor bodyB rope.pointB)
        (worldAnchor bodyA rope.pointA))) →
      ((solveIdealRope sq rope bodyA bodyB).removed = true ↔
        (¬(bodyA.isNone = true ∧ bodyB.isNone = true) ∧ d > rope.length ∧
          (if rope.isElastic then
            elasticBreak rope.maxForce (orQ rope.stiffness (1 / 2) * (d - rope.length)) = true
          else nonElasticBreak rope.maxForce (d - rope.length) = true)))) ∧
    (∀ (w : World) (id : String),
      (w.constraints.all (fun c => c.id ≠ id)) = true →
      ((beforeUpdate sq w).1.constraints.all (fun c => c.id ≠ id)) = true ∧
      ((beforeUpdate sq w).2.all (fun e => Ev.evId e ≠ id)) = true) := by
  constructor
  · intro rope bodyA bodyB d hd
    by_cases hAB : bodyA.isNone && bodyB.isNone
    · have hA : bodyA.isNone = true := by cases bodyA <;> simp_all
      have hB : bodyB.isNone = true := by cases bodyB <;> simp_all
      simp [solveIdealRope, hAB, hA, hB]
    · have hnand : ¬(bodyA.isNone = true ∧ bodyB.isNone = true) := by
        intro hx
        exact hAB (by simp [hx.1, hx.2])
      by_cases hEl : rope.isElastic
      · simp only [solveIdealRope, hAB, Bool.false_eq_true, if_false, hEl,
          if_true, ← hd]
        split_ifs with h1 h2 <;> simp_all
      · simp only [solveIdealRope, hAB, Bool.false_eq_true, if_false, hEl, ← hd]
        split_ifs with h1 h2 h3 <;> simp_all
  · intro w id h
    have habs : ∀ c ∈ w.constraints, c.id ≠ id := by
      intro c hc
      have := List.all_eq_true.mp h c hc
      simpa using this
    have hfold := phaseA_fold_facts sq w w.constraints w [] (fun i => rfl)
    have hloop := pbdLoop_facts sq 10 (phaseA sq w).1
    have hphaseA1 : ∀ c' ∈ (phaseA sq w).1.constraints, c' ∈ w.constraints := by
      intro c' hc'
      exact hfold.2.2.1 c' hc'
    simp only [beforeUpdate_eq]
    constructor
    · rw [List.all_eq_true]
      intro c' hc'
      have h2 := hloop.2.1 c' hc'
      have h3 := hphaseA1 c' h2
      simpa using habs c' h3
    · rw [List.all_eq_true]
      intro e he
      rcases List.mem_append.mp he with h1 | h1
      · rcases hfold.2.2.2 e h1 with h2 | ⟨c2, hc2, hid⟩
        · exact absurd h2 (List.not_mem_nil e)
        · have : c2.id ≠ id := habs c2 hc2
          simpa [hid] using this
      · rcases (hloop.2.2 e h1).2 with ⟨c2, hc2, hid⟩
        have : c2.id ≠ id := habs c2 (hphaseA1 c2 hc2)
        simpa [hid] using this

/-- C6 counterexample: the non-elastic rope `ropeF6` has `maxForce = 10`
and a positional correction of only 5, which does not exceed `maxForce`,
yet one solver pass removes the rope: the code breaks a non-elastic rope
at a tenth of `maxForce` (`diff > rope.maxForce * 0.1`), not at
`maxForce`. -/
theorem ropeBreak_tenth_threshold :
    (solveIdealRope sqTab ropeF6 (some baseBody) none).removed = true ∧
    sqTab (magSq (vsub (worldAnchor none ropeF6.pointB)
      (worldAnchor (some baseBody) ropeF6.pointA))) - ropeF6.length = 5 ∧
    ropeF6.maxForce = some 10 ∧ ropeF6.isElastic = false ∧ ¬((5:ℚ) > 10) := by
  refine ⟨?_, ?_, rfl, rfl, by norm_num⟩
  · norm_num [solveIdealRope, ropeF6, ropeF1, baseCons, baseBody, worldAnchor,
      vadd, vrot, Rot.id, vsub, magSq, sqTab, nonElasticBreak]
  · norm_num [ropeF6, ropeF1, baseCons, baseBody, worldAnchor,
      vadd, vrot, Rot.id, vsub, magSq, sqTab]

end Phys

namespace Phys

/-- The id of a slice piece's scene record is the original id plus the
suffix. -/
theorem partData_id (data : SceneObj) (normal p1 : Vec2) (verts : List Vec2)
    (suffix : String) : (partData data normal p1 verts suffix).id = data.id ++ suffix := rfl

/-- The scene record of a slice piece: a non-static generic Polygon whose
`customVertices` are the loop relative to its centroid and whose `mass`
field is inherited unchanged from the original object. -/
theorem partData_fields (data : SceneObj) (normal p1 : Vec2) (verts : List Vec2)
    (suffix : String) :
    (partData data normal p1 verts suffix).type = SType.Polygon ∧
    (partData data normal p1 verts suffix).isStatic = false ∧
    (partData data normal p1 verts suffix).customVertices =
      some (verts.map (fun v => vsub v (verticesCentre verts))) ∧
    (partData data normal p1 verts suffix).mass = data.mass :=
  ⟨rfl, rfl, rfl, rfl⟩

/-- A slice piece's body is dynamic. -/
theorem partBody_isStatic (data : SceneObj) (normal p1 : Vec2) (verts : List Vec2) :
    (partBody data normal p1 verts).isStatic = false := by
  by_cases h : truthyQ data.mass <;> simp [partBody, setMass, h]

/-- A slice piece's body carries half the original object's mass when that
mass is truthy (`if (data.mass) Body.setMass(body, data.mass / 2)`). -/
theorem partBody_mass (data : SceneObj) (normal p1 : Vec2) (verts : List Vec2)
    (h : truthyQ data.mass = true) :
    (partBody data normal p1 verts).mass = data.mass.getD 0 / 2 := by
  simp [partBody, setMass, h]

/-- `createPart` inserts the new scene record under the suffixed id. -/
theorem createPart_sceneData (w : World) (data : SceneObj) (normal p1 : Vec2)
    (verts : List Vec2) (suffix : String) :
    (createPart w data normal p1 verts suffix).sceneData =
      insertA w.sceneData (data.id ++ suffix) (partData data normal p1 verts suffix) := rfl

/-- `createPart` inserts the new body under the suffixed id. -/
theorem createPart_entities (w : World) (data : SceneObj) (normal p1 : Vec2)
    (verts : List Vec2) (suffix : String) :
    (createPart w data normal p1 verts suffix).entities =
      insertA w.entities (data.id ++ suffix) (partBody data normal p1 verts) := rfl

/-- With exactly two edge intersections, `_sliceBody` removes the original
object and creates part A then part B. -/
theorem sliceBody_if_two (sq : ℚ → ℚ) (w : World) (body : MBody) (p1 p2 : Vec2)
    (data : SceneObj) (int1 int2 : Vec2 × ℕ)
    (hints : sliceIntersections p1 p2 body.vertices = [int1, int2]) :
    sliceBody sq w body p1 p2 data =
      createPart (createPart (removeObject w data.id) data
        (cutNormal sq p1 p2) p1 (sliceLoopA body.vertices int1 int2) "_A")
        data (cutNormal sq p1 p2) p1 (sliceLoopB body.vertices int1 int2) "_B" := by
  simp [sliceBody, hints, List.getD]

/-- Evaluation of the cut fixture: the horizontal segment from (-1,2) to
(5,2) crosses exactly the two vertical edges of the 4-by-4 square, at
(4,2) on edge 1 and (0,2) on edge 3. -/
theorem sliceInts_square :
    sliceIntersections ⟨-1, 2⟩ ⟨5, 2⟩ bodySq.vertices =
      [(⟨4, 2⟩, 1), (⟨0, 2⟩, 3)] := by
  have hr : List.range 4 = [0, 1, 2, 3] := rfl
  norm_num [sliceIntersections, bodySq, baseBody, hr, getLineIntersection,
    List.getD, vzero, Vec2.mk.injEq, List.filterMap_cons, List.filterMap_nil]

/-- C5 (amended): slicing a body with a cut that crosses other than exactly
two edges of its outline changes nothing; with exactly two intersections
the original SceneObject and its body are removed and exactly two new
non-static Polygon SceneObjects (ids suffixed `_A`/`_B`) are created whose
`customVertices` are the two split vertex loops translated to be relative
to each loop's centroid; each new SceneObject record inherits the original
`mass` field unchanged, while each new physics body is assigned half the
original object's mass (when the original data carries a truthy mass);
every other object's record and body are untouched. -/
theorem sliceBody_spec (sq : ℚ → ℚ) (w : World) (body : MBody) (p1 p2 : Vec2)
    (data : SceneObj)
    (hA : data.id ++ "_A" ≠ data.id) (hB : data.id ++ "_B" ≠ data.id)
    (hAB : data.id ++ "_A" ≠ data.id ++ "_B") :
    ((sliceIntersections p1 p2 body.vertices).length ≠ 2 →
      sliceBody sq w body p1 p2 data = w) ∧
    (∀ int1 int2,
      sliceIntersections p1 p2 body.vertices = [int1, int2] →
      lookupA (sliceBody sq w body p1 p2 data).sceneData data.id = none ∧
      lookupA (sliceBody sq w body p1 p2 data).entities data.id = none ∧
      (∃ recA,
        lookupA (sliceBody sq w body p1 p2 data).sceneData (data.id ++ "_A") =
          some recA ∧
        recA.type = SType.Polygon ∧
        recA.isStatic = false ∧
        recA.customVertices = some ((sliceLoopA body.vertices int1 int2).map
          (fun v => vsub v (verticesCentre (sliceLoopA body.vertices int1 int2)))) ∧
        recA.mass = data.mass) ∧
      (∃ recB,
        lookupA (sliceBody sq w body p1 p2 data).sceneData (data.id ++ "_B") =
          some recB ∧
        recB.type = SType.Polygon ∧
        recB.isStatic = false ∧
        recB.customVertices = some ((sliceLoopB body.vertices int1 int2).map
          (fun v => vsub v (verticesCentre (sliceLoopB body.vertices int1 int2)))) ∧
        recB.mass = data.mass) ∧
      (∃ bA,
        lookupA (sliceBody sq w body p1 p2 data).entities (data.id ++ "_A") =
          some bA ∧
        bA.isStatic = false ∧
        (truthyQ data.mass = true → bA.mass = data.mass.getD 0 / 2)) ∧
      (∃ bB,
        lookupA (sliceBody sq w body p1 p2 data).entities (data.id ++ "_B") =
          some bB ∧
        bB.isStatic = false ∧
        (truthyQ data.mass = true → bB.mass = data.mass.getD 0 / 2)) ∧
      (∀ i, i ≠ data.id → i ≠ data.id ++ "_A" → i ≠ data.id ++ "_B" →
        lookupA (sliceBody sq w body p1 p2 data).sceneData i =
          lookupA w.sceneData i ∧
        lookupA (sliceBody sq w body p1 p2 data).entities i =
          lookupA w.entities i)) := by
  constructor
  · intro hne
    simp only [sliceBody]
    rw [if_neg hne]
  · intro int1 int2 hints
    rw [sliceBody_if_two sq w body p1 p2 data int1 int2 hints]
    refine ⟨?_, ?_, ?_, ?_, ?_, ?_, ?_⟩
    · rw [createPart_sceneData, lookupA_insertA_ne _ _ _ _ (Ne.symm hB),
        createPart_sceneData, lookupA_insertA_ne _ _ _ _ (Ne.symm hA)]
      exact lookupA_removeA_self w.sceneData data.id
    · rw [createPart_entities, lookupA_insertA_ne _ _ _ _ (Ne.symm hB),
        createPart_entities, lookupA_insertA_ne _ _ _ _ (Ne.symm hA)]
      exact lookupA_removeA_self w.entities data.id
    · refine ⟨partData data (cutNormal sq p1 p2) p1
        (sliceLoopA body.vertices int1 int2) "_A", ?_,
        (partData_fields _ _ _ _ _).1, (partData_fields _ _ _ _ _).2.1,
        (partData_fields _ _ _ _ _).2.2.1, (partData_fields _ _ _ _ _).2.2.2⟩
      rw [createPart_sceneData, lookupA_insertA_ne _ _ _ _ hAB,
        createPart_sceneData]
      exact lookupA_insertA_self _ _ _
    · refine ⟨partData data (cutNormal sq p1 p2) p1
        (sliceLoopB body.vertices int1 int2) "_B", ?_,
        (partData_fields _ _ _ _ _).1, (partData_fields _ _ _ _ _).2.1,
        (partData_fields _ _ _ _ _).2.2.1, (partData_fields _ _ _ _ _).2.2.2⟩
      rw [createPart_sceneData]
      exact lookupA_insertA_self _ _ _
    · refine ⟨partBody data (cutNormal sq p1 p2) p1
        (sliceLoopA body.vertices int1 int2), ?_,
        partBody_isStatic _ _ _ _, fun h => partBody_mass _ _ _ _ h⟩
      rw [createPart_entities, lookupA_insertA_ne _ _ _ _ hAB,
        createPart_entities]
      exact lookupA_insertA_self _ _ _
    · refine ⟨partBody data (cutNormal sq p1 p2) p1
        (sliceLoopB body.vertices int1 int2), ?_,
        partBody_isStatic _ _ _ _, fun h => partBody_mass _ _ _ _ h⟩
      rw [createPart_entities]
      exact lookupA_insertA_self _ _ _
    · intro i hi hiA hiB
      constructor
      · rw [createPart_sceneData, lookupA_insertA_ne _ _ _ _ hiB,
          createPart_sceneData, lookupA_insertA_ne _ _ _ _ hiA]
        exact lookupA_removeA_ne w.sceneData data.id i hi
      · rw [createPart_entities, lookupA_insertA_ne _ _ _ _ hiB,
          createPart_entities, lookupA_insertA_ne _ _ _ _ hiA]
        exact lookupA_removeA_ne w.entities data.id i hi

/-- C5 counterexample: slicing the 4-by-4 square of mass 8 leaves `mass: 8`
(not 4) in the new SceneObject record `obj_A` — only the physics body gets
half the mass — and the stored `customVertices` are the loop recentred at
its centroid, not the world-coordinate vertex loop the slice produced. -/
theorem slice_mass_not_halved_in_sceneData :
    dataSq.mass = some 8 ∧
    (lookupA (sliceBody sqTab wSlice bodySq ⟨-1, 2⟩ ⟨5, 2⟩ dataSq).sceneData
      "obj_A").map SceneObj.mass = some (some 8) ∧
    (lookupA (sliceBody sqTab wSlice bodySq ⟨-1, 2⟩ ⟨5, 2⟩ dataSq).entities
      "obj_A").map MBody.mass = some 4 ∧
    (lookupA (sliceBody sqTab wSlice bodySq ⟨-1, 2⟩ ⟨5, 2⟩ dataSq).sceneData
      "obj_A").map SceneObj.customVertices =
      some (some [⟨2, -1⟩, ⟨2, 1⟩, ⟨-2, 1⟩, ⟨-2, -1⟩]) ∧
    sliceLoopA bodySq.vertices (⟨4, 2⟩, 1) (⟨0, 2⟩, 3) =
      [⟨4, 2⟩, ⟨4, 4⟩, ⟨0, 4⟩, ⟨0, 2⟩] ∧
    ¬(([⟨2, -1⟩, ⟨2, 1⟩, ⟨-2, 1⟩, ⟨-2, -1⟩] : List Vec2) =
      [⟨4, 2⟩, ⟨4, 4⟩, ⟨0, 4⟩, ⟨0, 2⟩]) := by
  have hints : sliceIntersections ⟨-1, 2⟩ ⟨5, 2⟩ bodySq.vertices =
      [(⟨4, 2⟩, 1), (⟨0, 2⟩, 3)] := sliceInts_square
  have hred := sliceBody_if_two sqTab wSlice bodySq ⟨-1, 2⟩ ⟨5, 2⟩ dataSq
    (⟨4, 2⟩, 1) (⟨0, 2⟩, 3) hints
  have hid : dataSq.id = "obj" := rfl
  have hlA : lookupA (sliceBody sqTab wSlice bodySq ⟨-1, 2⟩ ⟨5, 2⟩ dataSq).sceneData
      "obj_A" = some (partData dataSq (cutNormal sqTab ⟨-1, 2⟩ ⟨5, 2⟩) ⟨-1, 2⟩
        (sliceLoopA bodySq.vertices (⟨4, 2⟩, 1) (⟨0, 2⟩, 3)) "_A") := by
    rw [hred, createPart_sceneData, hid]
    rw [show ("obj" : String) ++ "_B" = "obj_B" from rfl]
    rw [lookupA_insertA_ne _ _ _ _ (by decide), createPart_sceneData, hid,
      show ("obj" : String) ++ "_A" = "obj_A" from rfl]
    exact lookupA_insertA_self _ _ _
  have hbA : lookupA (sliceBody sqTab wSlice bodySq ⟨-1, 2⟩ ⟨5, 2⟩ dataSq).entities
      "obj_A" = some (partBody dataSq (cutNormal sqTab ⟨-1, 2⟩ ⟨5, 2⟩) ⟨-1, 2⟩
        (sliceLoopA bodySq.vertices (⟨4, 2⟩, 1) (⟨0, 2⟩, 3))) := by
    rw [hred, createPart_entities, hid]
    rw [show ("obj" : String) ++ "_B" = "obj_B" from rfl]
    rw [lookupA_insertA_ne _ _ _ _ (by decide), createPart_entities, hid,
      show ("obj" : String) ++ "_A" = "obj_A" from rfl]
    exact lookupA_insertA_self _ _ _
  have hloopA : sliceLoopA bodySq.vertices (⟨4, 2⟩, 1) (⟨0, 2⟩, 3) =
      [⟨4, 2⟩, ⟨4, 4⟩, ⟨0, 4⟩, ⟨0, 2⟩] := by
    have hr2 : List.range' 2 2 = [2, 3] := rfl
    norm_num [sliceLoopA, bodySq, baseBody, hr2, List.getD, vzero]
  have hcentre : verticesCentre [⟨4, 2⟩, ⟨4, 4⟩, ⟨0, 4⟩, ⟨0, 2⟩] = ⟨2, 3⟩ := by
    have hr : List.range 4 = [0, 1, 2, 3] := rfl
    norm_num [verticesCentre, verticesArea, hr, List.getD, vzero, vadd, vmul,
      vdiv, List.foldl_cons, List.foldl_nil, Vec2.mk.injEq]
  refine ⟨rfl, ?_, ?_, ?_, hloopA, ?_⟩
  · rw [hlA]
    rfl
  · rw [hbA]
    have : (partBody dataSq (cutNormal sqTab ⟨-1, 2⟩ ⟨5, 2⟩) ⟨-1, 2⟩
        (sliceLoopA bodySq.vertices (⟨4, 2⟩, 1) (⟨0, 2⟩, 3))).mass =
        dataSq.mass.getD 0 / 2 := partBody_mass _ _ _ _ (by decide)
    rw [Option.map_some', this]
    norm_num [dataSq, baseObj]
  · rw [hlA, Option.map_some',
      (partData_fields dataSq (cutNormal sqTab ⟨-1, 2⟩ ⟨5, 2⟩) ⟨-1, 2⟩
        (sliceLoopA bodySq.vertices (⟨4, 2⟩, 1) (⟨0, 2⟩, 3)) "_A").2.2.1,
      hloopA, hcentre]
    norm_num [vsub, Vec2.mk.injEq]
  · intro h
    have := congrArg (fun l => List.getD l 0 vzero) h
    simp [List.getD, vzero, Vec2.mk.injEq] at this

/-- Witness for `sliceBody_spec`: the square fixture's suffixed ids are
distinct from the original, and slicing it removes the original record. -/
theorem sliceBody_spec_witness :
    (dataSq.id ++ "_A" ≠ dataSq.id) ∧ (dataSq.id ++ "_B" ≠ dataSq.id) ∧
    (dataSq.id ++ "_A" ≠ dataSq.id ++ "_B") ∧
    lookupA (sliceBody sqTab wSlice bodySq ⟨-1, 2⟩ ⟨5, 2⟩ dataSq).sceneData
      dataSq.id = none := by
  refine ⟨by decide, by decide, by decide, ?_⟩
  exact ((sliceBody_spec sqTab wSlice bodySq ⟨-1, 2⟩ ⟨5, 2⟩ dataSq (by decide)
    (by decide) (by decide)).2 (⟨4, 2⟩, 1) (⟨0, 2⟩, 3) sliceInts_square).1

end Phys
